import Mathlib

/-!
# Verification of the SBOL3 ↔ SBOL2 conversion engine

Shallow embedding of `sbol_utilities/sbol3_sbol2_conversion.py`: the two
conversion visitors (`SBOL3To2ConversionVisitor`, `SBOL2To3ConversionVisitor`),
their vocabulary remap tables, the extension-property filters, the namespace
resolver, the sub-component identity triple-surgery pass, and the two entry
points `convert3to2` / `convert2to3`.

Python `str` operations (`in`, `str.replace`, `str.startswith`) are embedded as
executable functions on `List Char` underneath `String`.  Python exceptions are
embedded with `Except`.  The pySBOL2 / pySBOL3 library objects are embedded as
structures carrying exactly the fields the converter reads and writes; library
behaviors the converter relies on (constructor defaults, identity assignment of
child objects, rdflib write/read round-trip) are modelled where used and noted
in doc comments.
-/

namespace SBOLConv

/-! ## Namespace and vocabulary constants (from the source and from the
pySBOL2/pySBOL3 constant tables it imports) -/

def BACKPORT_NAMESPACE : String := "http://sboltools.org/backport#"
def BACKPORT2_VERSION : String := "http://sboltools.org/backport#sbol2version"
def BACKPORT3_NAMESPACE : String := "http://sboltools.org/backport#sbol3namespace"

def SBOL3_NS : String := "http://sbols.org/v3#"
def SBOL2_NS : String := "http://sbols.org/v2#"
def RDF_NS : String := "http://www.w3.org/1999/02/22-rdf-syntax-ns#"
def PROV_NS : String := "http://www.w3.org/ns/prov#"
def OM_NS : String := "http://www.ontology-of-units-of-measure.org/resource/om-2/"

def DCTERMS_TITLE : String := "http://purl.org/dc/terms/title"
def DCTERMS_DESCRIPTION : String := "http://purl.org/dc/terms/description"

/-- `NON_EXTENSION_PROPERTY_PREFIXES` (a Python set; order is irrelevant since
it is only consumed by `any(...)`). -/
def NON_EXTENSION_PROPERTY_PREFIXES : List String :=
  [SBOL3_NS, SBOL2_NS, RDF_NS, PROV_NS, OM_NS, BACKPORT_NAMESPACE]

/-- `SBOL2_NON_EXTENSION_PROPERTY_PREFIXES = NON_EXTENSION_PROPERTY_PREFIXES ∪
{dcterms description, dcterms title}`. -/
def SBOL2_NON_EXTENSION_PROPERTY_PREFIXES : List String :=
  NON_EXTENSION_PROPERTY_PREFIXES ++ [DCTERMS_DESCRIPTION, DCTERMS_TITLE]

-- pySBOL3 vocabulary constants
def SBO_DNA : String := "https://identifiers.org/SBO:0000251"
def SBO_RNA : String := "https://identifiers.org/SBO:0000250"
def SBO_PROTEIN : String := "https://identifiers.org/SBO:0000252"
def SBO_SIMPLE_CHEMICAL : String := "https://identifiers.org/SBO:0000247"
def SBO_NON_COVALENT_COMPLEX : String := "https://identifiers.org/SBO:0000253"
def IUPAC_DNA_ENCODING : String := "https://identifiers.org/edam:format_1207"
def IUPAC_PROTEIN_ENCODING : String := "https://identifiers.org/edam:format_1208"
def SMILES_ENCODING : String := "https://identifiers.org/edam:format_1196"

-- pySBOL2 vocabulary constants
def BIOPAX_DNA : String := "http://www.biopax.org/release/biopax-level3.owl#DnaRegion"
def BIOPAX_RNA : String := "http://www.biopax.org/release/biopax-level3.owl#RnaRegion"
def BIOPAX_PROTEIN : String := "http://www.biopax.org/release/biopax-level3.owl#Protein"
def BIOPAX_SMALL_MOLECULE : String := "http://www.biopax.org/release/biopax-level3.owl#SmallMolecule"
def BIOPAX_COMPLEX : String := "http://www.biopax.org/release/biopax-level3.owl#Complex"
/-- The plain (non-Region) BioPAX terms written literally in
`visit_component_definition`. -/
def BIOPAX_DNA_PLAIN : String := "http://www.biopax.org/release/biopax-level3.owl#Dna"
def BIOPAX_RNA_PLAIN : String := "http://www.biopax.org/release/biopax-level3.owl#Rna"
def SBOL_ENCODING_IUPAC : String := "http://www.chem.qmul.ac.uk/iubmb/misc/naseq.html"
def SBOL_ENCODING_IUPAC_PROTEIN : String := "http://www.chem.qmul.ac.uk/iupac/AminoAcid/"
def SBOL_ENCODING_SMILES : String := "http://www.opensmiles.org/opensmiles.html"

/-! ## Python string primitives -/

/-- Python substring test `needle in hay`, on character lists. -/
def containsSub (hay needle : List Char) : Bool :=
  match hay with
  | [] => needle.isEmpty
  | _ :: t => needle.isPrefixOf hay || containsSub t needle

/-- Python `needle in hay` for strings. -/
def pyIn (needle hay : String) : Bool :=
  containsSub hay.data needle.data

/-- Left-to-right, non-overlapping replacement of a non-empty `needle`
(the scan of Python `str.replace`), structurally recursive on a fuel that the
wrapper sets to the haystack length (enough, since each step consumes at least
one character; exhausted fuel returns the remainder unchanged). -/
def replaceSubFuel (needle rep : List Char) : Nat → List Char → List Char
  | _, [] => []
  | 0, c :: t => c :: t
  | f + 1, c :: t =>
    if needle.isPrefixOf (c :: t) ∧ needle ≠ [] then
      rep ++ replaceSubFuel needle rep f ((c :: t).drop needle.length)
    else
      c :: replaceSubFuel needle rep f t

def replaceSub (hay needle rep : List Char) : List Char :=
  replaceSubFuel needle rep hay.length hay

/-- Python `s.replace(old, new)` (for empty `old`, Python interleaves `new`
before every character and at the end). -/
def pyReplace (s old new : String) : String :=
  if old.data = [] then
    ⟨new.data ++ (s.data.map (fun c => [c] ++ new.data)).flatten⟩
  else
    ⟨replaceSub s.data old.data new.data⟩

/-- Python `s.startswith(p)`. -/
def pyStartsWith (s p : String) : Bool :=
  p.data.isPrefixOf s.data

/-- Python truthiness of an optional string (`None` and `''` are falsy). -/
def pyTruthyOpt : Option String → Bool
  | none => true && false
  | some s => s ≠ ""

/-- Python `a or b` for an optional string `a` and plain string `b`. -/
def pyOrStr (a : Option String) (b : String) : String :=
  if pyTruthyOpt a then a.getD b else b

/-! ## Remap tables (`visit_component`, `visit_sequence`,
`visit_component_definition`, and the reverse `visit_sequence`) -/

/-- `type_map` of `SBOL3To2ConversionVisitor.visit_component`. -/
def type_map_3to2 : List (String × String) :=
  [(SBO_DNA, BIOPAX_DNA),
   (SBO_RNA, BIOPAX_RNA),
   (SBO_PROTEIN, BIOPAX_PROTEIN),
   (SBO_SIMPLE_CHEMICAL, BIOPAX_SMALL_MOLECULE),
   (SBO_NON_COVALENT_COMPLEX, BIOPAX_COMPLEX)]

/-- `encoding_map` of `SBOL3To2ConversionVisitor.visit_sequence`. -/
def encoding_map_3to2 : List (String × String) :=
  [(IUPAC_DNA_ENCODING, SBOL_ENCODING_IUPAC),
   (IUPAC_PROTEIN_ENCODING, SBOL_ENCODING_IUPAC_PROTEIN),
   (SMILES_ENCODING, SBOL_ENCODING_SMILES)]

/-- `type_map` of `SBOL2To3ConversionVisitor.visit_component_definition`
(insertion order as in the source, including the two one-way plain
BioPAX aliases marked "TODO: make reversible"). -/
def type_map_2to3 : List (String × String) :=
  [(BIOPAX_DNA, SBO_DNA),
   (BIOPAX_DNA_PLAIN, SBO_DNA),
   (BIOPAX_RNA, SBO_RNA),
   (BIOPAX_RNA_PLAIN, SBO_RNA),
   (BIOPAX_PROTEIN, SBO_PROTEIN),
   (BIOPAX_SMALL_MOLECULE, SBO_SIMPLE_CHEMICAL),
   (BIOPAX_COMPLEX, SBO_NON_COVALENT_COMPLEX)]

/-- `encoding_map` of `SBOL2To3ConversionVisitor.visit_sequence`. -/
def encoding_map_2to3 : List (String × String) :=
  [(SBOL_ENCODING_IUPAC, IUPAC_DNA_ENCODING),
   (SBOL_ENCODING_IUPAC_PROTEIN, IUPAC_PROTEIN_ENCODING),
   (SBOL_ENCODING_SMILES, SMILES_ENCODING)]

/-- Python `d.get(t, t)`: look `t` up, pass it through unchanged when absent. -/
def pyGetSelf (m : List (String × String)) (t : String) : String :=
  (m.lookup t).getD t

/-- `d.get(t, t)` lifted to an optional term (a `None` key is absent from
every table, so it passes through). -/
def pyGetSelfOpt (m : List (String × String)) : Option String → Option String
  | none => none
  | some t => some (pyGetSelf m t)

/-! ## Data model

Embeddings of the pySBOL3 / pySBOL2 objects, carrying exactly the fields the
converter reads or writes.  `display_id` is the final path segment of the
identity (a pySBOL3/pySBOL2 invariant), so it is computed, not stored.
`_properties` maps of extension (non-core) properties are association lists in
insertion order; core SBOL properties are explicit fields. -/

/-- Split a character list on a separator character (like Python
`str.split(sep)` with all groups kept). -/
def splitOnChar (c : Char) : List Char → List (List Char)
  | [] => [[]]
  | x :: xs =>
    match splitOnChar c xs with
    | [] => [[]]
    | g :: gs => if x = c then [] :: g :: gs else (x :: g) :: gs

/-- Final path segment of an identity URI (pySBOL display-ID derivation). -/
def lastSegment (s : String) : String :=
  ⟨(splitOnChar '/' s.data).getLastD s.data⟩

/-- Python exceptions raised by the converter. -/
inductive ConvErr where
  /-- `NotImplementedError(msg)` -/
  | notImplemented (msg : String)
  /-- `ValueError` from `_sbol3_namespace` for the named object -/
  | valueError (objIdentity : String)
  /-- `TypeError` from iterating over a `None` namespaces list -/
  | typeErrorNoneNotIterable
deriving DecidableEq

/-- Shared `Identified`/`TopLevel` fields of an SBOL3 object read by
`_convert_identified` / `_convert_toplevel`. -/
structure Ident3 where
  name : Option String := none
  description : Option String := none
  derived_from : List String := []
  generated_by : List String := []
  attachments : List String := []
  measures : List String := []
  /-- value of the `BACKPORT2_VERSION` bookkeeping property, if present -/
  sbol2_version : Option String := none
  /-- the remaining (non-core-SBOL) entries of `_properties` -/
  props : List (String × List String) := []
deriving DecidableEq

structure SubComponent3 where
  identity : String
  roles : List String := []
  role_integration : Option String := none
  source_locations : List String := []
  instance_of : String
deriving DecidableEq

/-- A feature of an SBOL3 `Component`, as discriminated by `visit_component`
(`SubComponent`, `ComponentReference`, anything else). -/
inductive Feature3 where
  | sub (s : SubComponent3)
  | componentReference (identity : String)
  | otherFeature (identity : String)
deriving DecidableEq

structure Component3 where
  identity : String
  nspace : String
  types : List String := []
  roles : List String := []
  sequences : List String := []
  features : List Feature3 := []
  interactions : List String := []
  constraints : List String := []
  interface : Option String := none
  models : List String := []
  meta : Ident3 := {}
deriving DecidableEq

structure Sequence3 where
  identity : String
  nspace : String
  elements : Option String := none
  encoding : Option String := none
  meta : Ident3 := {}
deriving DecidableEq

structure Collection3 where
  identity : String
  nspace : String
  members : List String := []
  meta : Ident3 := {}
deriving DecidableEq

structure Activity3 where
  identity : String
  nspace : String
  types : List String := []
  start_time : Option String := none
  end_time : Option String := none
  usage : List String := []
  association : List String := []
  meta : Ident3 := {}
deriving DecidableEq

structure Implementation3 where
  identity : String
  nspace : String
  built : Option String := none
  meta : Ident3 := {}
deriving DecidableEq

/-- A top-level SBOL3 object, as dispatched by `doc3.accept`.  `agent` and
`experiment` stand for the kinds whose visitors only raise. -/
inductive Top3 where
  | collection (c : Collection3)
  | component (c : Component3)
  | sequence (s : Sequence3)
  | activity (a : Activity3)
  | implementation (i : Implementation3)
  | agent (identity : String)
  | experiment (identity : String)
deriving DecidableEq

/-- Shared `Identified`/`TopLevel` fields of an SBOL2 object.  In pySBOL2 the
`name`/`description` attributes alias the dcterms entries of `properties`; they
are separate fields here, which is observationally equivalent because the
reverse filter excludes the dcterms prefixes (nothing downstream reads them
from `props`). -/
structure Ident2 where
  name : Option String := none
  description : Option String := none
  wasDerivedFrom : List String := []
  wasGeneratedBy : List String := []
  attachments : List String := []
  /-- extension and bookkeeping entries of `properties` -/
  props : List (String × List String) := []
deriving DecidableEq

structure Component2 where
  identity : String
  roles : List String := []
  roleIntegration : Option String := none
  sourceLocations : List String := []
  definition : String
  displayId : String
deriving DecidableEq

structure ComponentDefinition2 where
  identity : String
  version : String := "1"
  types : List String := []
  roles : List String := []
  sequences : List String := []
  components : List Component2 := []
  sequenceAnnotations : List String := []
  sequenceConstraints : List String := []
  meta : Ident2 := {}
deriving DecidableEq

structure Sequence2 where
  identity : String
  version : String := "1"
  elements : Option String := none
  encoding : Option String := none
  meta : Ident2 := {}
deriving DecidableEq

structure Collection2 where
  identity : String
  version : String := "1"
  members : List String := []
  meta : Ident2 := {}
deriving DecidableEq

structure Activity2 where
  identity : String
  version : String := "1"
  /-- pySBOL2 `Activity.types` holds at most one value -/
  types : Option String := none
  startedAtTime : Option String := none
  endedAtTime : Option String := none
  usages : List String := []
  associations : List String := []
  meta : Ident2 := {}
deriving DecidableEq

structure Implementation2 where
  identity : String
  version : String := "1"
  built : Option String := none
  meta : Ident2 := {}
deriving DecidableEq

/-- An SBOL2 document: per-kind buckets in which `addX` appends, matching the
iteration order of the reverse `visit_document`.  Unsupported kinds carry the
identities of their objects. -/
structure Doc2 where
  componentDefinitions : List ComponentDefinition2 := []
  moduleDefinitions : List String := []
  models : List String := []
  sequences : List Sequence2 := []
  collections : List Collection2 := []
  activities : List Activity2 := []
  plans : List String := []
  agents : List String := []
  attachments : List String := []
  combinatorialderivations : List String := []
  implementations : List Implementation2 := []
  experiments : List String := []
  experimentalData : List String := []
deriving DecidableEq

def emptyDoc2 : Doc2 := {}

/-! ## Forward visitor: `SBOL3To2ConversionVisitor` -/

namespace SBOL3To2

/-- `_convert_extension_properties` (3→2): the generator comprehension keeps,
in order, every property whose URI starts with none of the core prefixes. -/
def convert_extension_properties (props : List (String × List String)) :
    List (String × List String) :=
  props.filter (fun p => !(NON_EXTENSION_PROPERTY_PREFIXES.any (fun pre => pyStartsWith p.1 pre)))

/-- `_value_or_property`. -/
def value_or_property (props : List (String × List String)) (value : Option String)
    (prop : String) : Option String :=
  match props.lookup prop with
  | some [v] => some (pyOrStr value v)
  | _ => value

/-- `_sbol2_version`: the backported version string, defaulting to `"1"`. -/
def sbol2_version (m : Ident3) : String :=
  pyOrStr m.sbol2_version "1"

/-- `_convert_identified` (3→2). -/
def convert_identified (m : Ident3) : Except ConvErr Ident2 := do
  let ext := convert_extension_properties m.props
  let name := value_or_property m.props m.name DCTERMS_TITLE
  let desc := value_or_property m.props m.description DCTERMS_DESCRIPTION
  if m.measures ≠ [] then
    throw (.notImplemented "Conversion of measures from SBOL3 to SBOL2 not yet implemented")
  pure { name := name, description := desc,
         wasDerivedFrom := m.derived_from, wasGeneratedBy := m.generated_by,
         attachments := [], props := ext }

/-- `_convert_toplevel` (3→2): also copies attachments and records the SBOL3
namespace under the `BACKPORT3_NAMESPACE` bookkeeping property. -/
def convert_toplevel (nspace : String) (m : Ident3) : Except ConvErr Ident2 := do
  let i2 ← convert_identified m
  pure { i2 with attachments := m.attachments,
                 props := i2.props ++ [(BACKPORT3_NAMESPACE, [nspace])] }

/-- `visit_collection`.  pySBOL2's `Collection(uri)` constructor defaults the
version to `"1"` (no version argument is passed in this branch). -/
def visit_collection (c : Collection3) : Except ConvErr Collection2 := do
  let meta2 ← convert_toplevel c.nspace c.meta
  pure { identity := c.identity, version := "1", members := c.members, meta := meta2 }

/-- `visit_sub_component`: builds the SBOL2 `Component` added to the parent
`ComponentDefinition`. -/
def visit_sub_component (s : SubComponent3) : Component2 :=
  { identity := s.identity, roles := s.roles, roleIntegration := s.role_integration,
    sourceLocations := s.source_locations, definition := s.instance_of,
    displayId := lastSegment s.identity }

/-- One step of the feature loop of `visit_component`: a `SubComponent`
converts and is added; a `ComponentReference` raises `NotImplementedError`
which the loop catches and prints (the feature is skipped); any other feature
kind raises uncaught. -/
def sub_component_step (acc : List Component2) (f : Feature3) :
    Except ConvErr (List Component2) :=
  match f with
  | .sub s => pure (acc ++ [visit_sub_component s])
  | .componentReference _ => pure acc
  | .otherFeature _ =>
    throw (.notImplemented "Conversion of Component features from SBOL3 to SBOL2 not yet implemented")

/-- `visit_component`.  `SubComponent` features convert; `ComponentReference`
features, interactions and constraints raise `NotImplementedError` which the
source catches and prints (the objects are skipped); any other feature kind,
a non-`None` interface, and models raise uncaught. -/
def visit_component (c : Component3) : Except ConvErr ComponentDefinition2 := do
  let types2 := c.types.map (pyGetSelf type_map_3to2)
  let version := sbol2_version c.meta
  let comps ← c.features.foldlM sub_component_step []
  if c.interface.isSome then
    throw (.notImplemented "Conversion of Component interface from SBOL3 to SBOL2 not yet implemented")
  if c.models ≠ [] then
    throw (.notImplemented "Conversion of Component models from SBOL3 to SBOL2 not yet implemented")
  let meta2 ← convert_toplevel c.nspace c.meta
  pure { identity := c.identity, version := version, types := types2, roles := c.roles,
         sequences := c.sequences, components := comps,
         sequenceAnnotations := [], sequenceConstraints := [], meta := meta2 }

/-- `visit_activity`: rejects more than one type (pySBOL2 supports at most
one); usage/association properties raise before the comprehensions run. -/
def visit_activity (a : Activity3) : Except ConvErr Activity2 := do
  let version := sbol2_version a.meta
  let types2 ← (match a.types with
    | [] => pure (none : Option String)
    | [t] => pure (some t)
    | _ =>
      throw (.notImplemented "Conversion of multi-type Activities to SBOL2 not yet implemented"))
  if a.usage ≠ [] ∨ a.association ≠ [] then
    throw (.notImplemented "Conversion of Activity usage and association properties to SBOL2 not yet implemented")
  let meta2 ← convert_toplevel a.nspace a.meta
  pure { identity := a.identity, version := version, types := types2,
         startedAtTime := a.start_time, endedAtTime := a.end_time,
         usages := [], associations := [], meta := meta2 }

/-- `visit_sequence` (3→2): encoding remapped through the table, other terms
pass through. -/
def visit_sequence (s : Sequence3) : Except ConvErr Sequence2 := do
  let encoding2 := pyGetSelfOpt encoding_map_3to2 s.encoding
  let meta2 ← convert_toplevel s.nspace s.meta
  pure { identity := s.identity, version := sbol2_version s.meta,
         elements := s.elements, encoding := encoding2, meta := meta2 }

/-- `visit_implementation`. -/
def visit_implementation (i : Implementation3) : Except ConvErr Implementation2 := do
  let meta2 ← convert_toplevel i.nspace i.meta
  pure { identity := i.identity, version := sbol2_version i.meta,
         built := i.built, meta := meta2 }

/-- `obj.accept(self)` for one top-level object: dispatch to the per-kind
visitor and add the result to its document bucket; visitors of unsupported
kinds raise uncaught. -/
def accept (d2 : Doc2) (obj : Top3) : Except ConvErr Doc2 :=
  match obj with
  | .collection c => do
      let c2 ← visit_collection c
      pure { d2 with collections := d2.collections ++ [c2] }
  | .component c => do
      let cd2 ← visit_component c
      pure { d2 with componentDefinitions := d2.componentDefinitions ++ [cd2] }
  | .sequence s => do
      let s2 ← visit_sequence s
      pure { d2 with sequences := d2.sequences ++ [s2] }
  | .activity a => do
      let a2 ← visit_activity a
      pure { d2 with activities := d2.activities ++ [a2] }
  | .implementation i => do
      let i2 ← visit_implementation i
      pure { d2 with implementations := d2.implementations ++ [i2] }
  | .agent _ =>
      throw (.notImplemented "Conversion of Agent from SBOL3 to SBOL2 not yet implemented")
  | .experiment _ =>
      throw (.notImplemented "Conversion of Experiment from SBOL3 to SBOL2 not yet implemented")

/-- `visit_document` (3→2): each object accepted in document order. -/
def visit_document (doc3 : List Top3) : Except ConvErr Doc2 :=
  doc3.foldlM accept emptyDoc2

end SBOL3To2

/-! ## `convert3to2` entry point and its configuration handling -/

/-- The process-wide pySBOL2 configuration mutated by `_convert` (3→2):
the `SBOL_COMPLIANT_URIS` option and the homespace. -/
structure SBOL2Config where
  sbolCompliantURIs : Bool
  homespace : String
deriving DecidableEq

/-- `convert3to2`, result only (the visitor runs under compliant URIs off and
empty homespace, which is how the embedded constructors behave). -/
def convert3to2 (doc3 : List Top3) : Except ConvErr Doc2 :=
  SBOL3To2.visit_document doc3

/-- `SBOL3To2ConversionVisitor._convert` with the configuration state made
explicit: save both toggles, override them, run the conversion (which may
raise), then restore the saved values in the `finally` block. -/
def convert3to2_stateful (doc3 : List Top3) (cfg : SBOL2Config) :
    Except ConvErr Doc2 × SBOL2Config :=
  let saved_compliance := cfg.sbolCompliantURIs
  let cfg1 := { cfg with sbolCompliantURIs := false }
  let saved_homespace := cfg1.homespace
  let cfg2 := { cfg1 with homespace := "" }
  let result := convert3to2 doc3
  -- finally: reset saved parameter values (runs on normal return and on raise)
  let cfg3 := { cfg2 with sbolCompliantURIs := saved_compliance }
  let cfg4 := { cfg3 with homespace := saved_homespace }
  (result, cfg4)

/-! ## The identity triple-surgery pass

`handle_subcomponent_identity_triple_surgery` writes the working SBOL3 document
to an n-triples file, rewrites lines textually, and re-reads the file.  The
textual core is embedded exactly; the write/read round-trip through rdflib is
modelled by a serializer over the embedded document model together with the
assumption (true of rdflib) that re-reading an unchanged serialization yields
the same document. -/

def RDF_TYPE : String := "http://www.w3.org/1999/02/22-rdf-syntax-ns#type"

/-- Render an n-triples line; the object term is already rendered. -/
def renderTriple (s p o : String) : String :=
  "<" ++ s ++ "> <" ++ p ++ "> " ++ o ++ " ."

def uriRef (u : String) : String := "<" ++ u ++ ">"

def litRef (v : String) : String := "\"" ++ v ++ "\""

/-- One line of the rewrite loop: for each recorded mapping, if
`"<old> <http://sbols.org/v3#instanceOf>"` occurs in the (original) line, the
line is replaced by `line.replace(old, new)`.  The loop always tests and
rewrites the original line (`triple`), so the last matching mapping wins. -/
def surgery_line (mappings : List (String × String)) (line : String) : String :=
  mappings.foldl (fun acc m =>
    if pyIn ("<" ++ m.1 ++ "> <http://sbols.org/v3#instanceOf>") line then
      pyReplace line m.1 m.2
    else acc) line

/-- The rewrite loop of `handle_subcomponent_identity_triple_surgery` over all
lines of the serialized document. -/
def triple_surgery (mappings : List (String × String)) (lines : List String) :
    List String :=
  lines.map (surgery_line mappings)

def serializeIdent3 (id : String) (m : Ident3) : List String :=
  (match m.name with
   | some n => [renderTriple id "http://sbols.org/v3#name" (litRef n)]
   | none => []) ++
  (match m.description with
   | some d => [renderTriple id "http://sbols.org/v3#description" (litRef d)]
   | none => []) ++
  m.derived_from.map (fun u => renderTriple id "http://www.w3.org/ns/prov#wasDerivedFrom" (uriRef u)) ++
  m.generated_by.map (fun u => renderTriple id "http://www.w3.org/ns/prov#wasGeneratedBy" (uriRef u)) ++
  m.attachments.map (fun u => renderTriple id "http://sbols.org/v3#hasAttachment" (uriRef u)) ++
  (match m.sbol2_version with
   | some v => [renderTriple id BACKPORT2_VERSION (litRef v)]
   | none => []) ++
  m.props.flatMap (fun p => p.2.map (fun v => renderTriple id p.1 (litRef v)))

def serializeSub (s : SubComponent3) : List String :=
  [renderTriple s.identity RDF_TYPE (uriRef "http://sbols.org/v3#SubComponent"),
   renderTriple s.identity "http://sbols.org/v3#instanceOf" (uriRef s.instance_of)] ++
  s.roles.map (fun r => renderTriple s.identity "http://sbols.org/v3#role" (uriRef r)) ++
  (match s.role_integration with
   | some r => [renderTriple s.identity "http://sbols.org/v3#roleIntegration" (uriRef r)]
   | none => []) ++
  s.source_locations.map (fun l => renderTriple s.identity "http://sbols.org/v3#sourceLocation" (uriRef l))

def serializeFeature (f : Feature3) : List String :=
  match f with
  | .sub s => serializeSub s
  | .componentReference id => [renderTriple id RDF_TYPE (uriRef "http://sbols.org/v3#ComponentReference")]
  | .otherFeature id => [renderTriple id RDF_TYPE (uriRef "http://sbols.org/v3#Feature")]

def featureIdentity : Feature3 → String
  | .sub s => s.identity
  | .componentReference id => id
  | .otherFeature id => id

/-- Model of `doc3.write` for one top-level object (an n-triples rendering of
every modelled field). -/
def serializeTop3 (t : Top3) : List String :=
  match t with
  | .collection c =>
      renderTriple c.identity RDF_TYPE (uriRef "http://sbols.org/v3#Collection") ::
      renderTriple c.identity "http://sbols.org/v3#hasNamespace" (uriRef c.nspace) ::
      c.members.map (fun u => renderTriple c.identity "http://sbols.org/v3#member" (uriRef u)) ++
      serializeIdent3 c.identity c.meta
  | .component c =>
      renderTriple c.identity RDF_TYPE (uriRef "http://sbols.org/v3#Component") ::
      renderTriple c.identity "http://sbols.org/v3#hasNamespace" (uriRef c.nspace) ::
      c.types.map (fun u => renderTriple c.identity "http://sbols.org/v3#type" (uriRef u)) ++
      c.roles.map (fun u => renderTriple c.identity "http://sbols.org/v3#role" (uriRef u)) ++
      c.sequences.map (fun u => renderTriple c.identity "http://sbols.org/v3#hasSequence" (uriRef u)) ++
      c.features.map (fun f => renderTriple c.identity "http://sbols.org/v3#hasFeature" (uriRef (featureIdentity f))) ++
      c.features.flatMap serializeFeature ++
      serializeIdent3 c.identity c.meta
  | .sequence s =>
      renderTriple s.identity RDF_TYPE (uriRef "http://sbols.org/v3#Sequence") ::
      renderTriple s.identity "http://sbols.org/v3#hasNamespace" (uriRef s.nspace) ::
      (match s.elements with
       | some e => [renderTriple s.identity "http://sbols.org/v3#elements" (litRef e)]
       | none => []) ++
      (match s.encoding with
       | some e => [renderTriple s.identity "http://sbols.org/v3#encoding" (uriRef e)]
       | none => []) ++
      serializeIdent3 s.identity s.meta
  | .activity a =>
      renderTriple a.identity RDF_TYPE (uriRef "http://www.w3.org/ns/prov#Activity") ::
      renderTriple a.identity "http://sbols.org/v3#hasNamespace" (uriRef a.nspace) ::
      a.types.map (fun u => renderTriple a.identity "http://sbols.org/v3#type" (uriRef u)) ++
      (match a.start_time with
       | some v => [renderTriple a.identity "http://www.w3.org/ns/prov#startedAtTime" (litRef v)]
       | none => []) ++
      (match a.end_time with
       | some v => [renderTriple a.identity "http://www.w3.org/ns/prov#endedAtTime" (litRef v)]
       | none => []) ++
      serializeIdent3 a.identity a.meta
  | .implementation i =>
      renderTriple i.identity RDF_TYPE (uriRef "http://sbols.org/v3#Implementation") ::
      renderTriple i.identity "http://sbols.org/v3#hasNamespace" (uriRef i.nspace) ::
      (match i.built with
       | some v => [renderTriple i.identity "http://sbols.org/v3#built" (uriRef v)]
       | none => []) ++
      serializeIdent3 i.identity i.meta
  | .agent id => [renderTriple id RDF_TYPE (uriRef "http://www.w3.org/ns/prov#Agent")]
  | .experiment id => [renderTriple id RDF_TYPE (uriRef "http://sbols.org/v3#Experiment")]

/-- Model of `doc3.write` to an n-triples file (`file.readlines()`). -/
def serializeDoc3 (doc3 : List Top3) : List String :=
  doc3.flatMap serializeTop3

/-- Parse one n-triples line into subject, predicate, and rendered object. -/
def parseLine (line : String) : Option (String × String × String) :=
  match line.splitOn "> <" with
  | [a, b, c] => some (a.drop 1, b, "<" ++ c.dropRight 3 ++ ">")
  | [a, bc] =>
      match bc.splitOn "> " with
      | b :: rest => some (a.drop 1, b, (String.intercalate "> " rest).dropRight 2)
      | [] => none
  | _ => none

/-- Strip a rendered object term back to its URI or literal text. -/
def unrender (o : String) : String :=
  if pyStartsWith o "<" then (o.drop 1).dropRight 1
  else if pyStartsWith o "\"" then (o.drop 1).dropRight 1
  else o

/-- Objects of all triples with the given subject and predicate. -/
def objectsOf (triples : List (String × String × String)) (s p : String) : List String :=
  (triples.filter (fun t => t.1 = s ∧ t.2.1 = p)).map (fun t => unrender t.2.2)

def firstObjOf (triples : List (String × String × String)) (s p : String) : Option String :=
  (objectsOf triples s p).head?

/-- Best-effort model of `doc3.read` on rewritten lines: rebuilds the
structured document from the triples.  It recovers the structural fields
(kinds, namespaces, members, types, roles, sequences, features and their
`instanceOf` targets, elements, encodings, times, built).  This branch of the
read model is exercised only when the rewrite changed at least one line; the
true rdflib re-read of such a graph can fall outside the structured model (a
feature whose `instanceOf` subject was renamed away keeps its other triples),
in which case the missing target is recovered as `""`. -/
def parseDoc3 (lines : List String) : List Top3 :=
  let triples := lines.filterMap parseLine
  let subOf : String → SubComponent3 := fun fid =>
    { identity := fid,
      roles := objectsOf triples fid "http://sbols.org/v3#role",
      role_integration := firstObjOf triples fid "http://sbols.org/v3#roleIntegration",
      source_locations := objectsOf triples fid "http://sbols.org/v3#sourceLocation",
      instance_of := (firstObjOf triples fid "http://sbols.org/v3#instanceOf").getD "" }
  let metaOf : String → Ident3 := fun id =>
    { name := firstObjOf triples id "http://sbols.org/v3#name",
      description := firstObjOf triples id "http://sbols.org/v3#description",
      derived_from := objectsOf triples id "http://www.w3.org/ns/prov#wasDerivedFrom",
      generated_by := objectsOf triples id "http://www.w3.org/ns/prov#wasGeneratedBy",
      attachments := objectsOf triples id "http://sbols.org/v3#hasAttachment",
      measures := [],
      sbol2_version := firstObjOf triples id BACKPORT2_VERSION,
      props := [] }
  triples.filterMap (fun t =>
    if t.2.1 = RDF_TYPE then
      let id := t.1
      let ns := (firstObjOf triples id "http://sbols.org/v3#hasNamespace").getD id
      match unrender t.2.2 with
      | "http://sbols.org/v3#Collection" =>
          let c : Collection3 :=
            { identity := id, nspace := ns,
              members := objectsOf triples id "http://sbols.org/v3#member",
              meta := metaOf id }
          some (Top3.collection c)
      | "http://sbols.org/v3#Component" =>
          let c : Component3 :=
            { identity := id, nspace := ns,
              types := objectsOf triples id "http://sbols.org/v3#type",
              roles := objectsOf triples id "http://sbols.org/v3#role",
              sequences := objectsOf triples id "http://sbols.org/v3#hasSequence",
              features := (objectsOf triples id "http://sbols.org/v3#hasFeature").map
                (fun fid => Feature3.sub (subOf fid)),
              meta := metaOf id }
          some (Top3.component c)
      | "http://sbols.org/v3#Sequence" =>
          let s : Sequence3 :=
            { identity := id, nspace := ns,
              elements := firstObjOf triples id "http://sbols.org/v3#elements",
              encoding := firstObjOf triples id "http://sbols.org/v3#encoding",
              meta := metaOf id }
          some (Top3.sequence s)
      | "http://www.w3.org/ns/prov#Activity" =>
          let a : Activity3 :=
            { identity := id, nspace := ns,
              types := objectsOf triples id "http://sbols.org/v3#type",
              start_time := firstObjOf triples id "http://www.w3.org/ns/prov#startedAtTime",
              end_time := firstObjOf triples id "http://www.w3.org/ns/prov#endedAtTime",
              meta := metaOf id }
          some (Top3.activity a)
      | "http://sbols.org/v3#Implementation" =>
          let i : Implementation3 :=
            { identity := id, nspace := ns,
              built := firstObjOf triples id "http://sbols.org/v3#built",
              meta := metaOf id }
          some (Top3.implementation i)
      | _ => none
    else none)

/-! ## Reverse visitor: `SBOL2To3ConversionVisitor` -/

namespace SBOL2To3

/-- `_sbol3_namespace`: bookkeeping property first (exactly one value or
`ValueError`); else the first caller-supplied candidate prefix of the
identity; iterating a `None` candidate list is a `TypeError`. -/
def sbol3_namespace (namespaces : Option (List String))
    (obj_props : List (String × List String)) (identity : String) :
    Except ConvErr (Option String) :=
  match obj_props.lookup BACKPORT3_NAMESPACE with
  | some vals =>
    match vals with
    | [v] => pure (some v)
    | _ => throw (.valueError identity)
  | none =>
    match namespaces with
    | none => throw .typeErrorNoneNotIterable
    | some nss => pure (nss.find? (fun n => pyStartsWith identity n))

/-- Modelled library behavior: pySBOL3 constructors derive a default namespace
from the identity (everything before the final path segment) when none is
given. -/
def default_namespace3 (identity : String) : String :=
  let segs := splitOnChar '/' identity.data
  if segs.length ≤ 1 then identity
  else ⟨List.intercalate ['/'] segs.dropLast⟩

def resolved_namespace (r : Option String) (identity : String) : String :=
  r.getD (default_namespace3 identity)

/-- `_convert_extension_properties` (2→3). -/
def convert_extension_properties (props : List (String × List String)) :
    List (String × List String) :=
  props.filter (fun p =>
    !(SBOL2_NON_EXTENSION_PROPERTY_PREFIXES.any (fun pre => pyStartsWith p.1 pre)))

/-- `_convert_identified` (2→3): saves a truthy version string under the
`BACKPORT2_VERSION` bookkeeping property. -/
def convert_identified (version : String) (m : Ident2) : Ident3 :=
  { name := m.name, description := m.description,
    derived_from := m.wasDerivedFrom, generated_by := m.wasGeneratedBy,
    attachments := [], measures := [],
    sbol2_version := if version ≠ "" then some version else none,
    props := convert_extension_properties m.props }

/-- `_convert_toplevel` (2→3). -/
def convert_toplevel (version : String) (m : Ident2) : Ident3 :=
  { convert_identified version m with attachments := m.attachments }

/-- `visit_component` (2→3): builds the SBOL3 `SubComponent` for one SBOL2
`Component` and records its identity mapping.  Modelled library behavior:
`sbol3.SubComponent(...)` is constructed without an explicit identity (its
first positional argument is `instance_of`), so attaching it to the parent
assigns the automatic identity `parent/SubComponentN` (N is the 1-based
position); `sub3.instance_of = comp2.definition` then overwrites the
constructor argument. -/
def visit_component (parent_identity : String) (idx1 : Nat) (comp2 : Component2) :
    SubComponent3 × (String × String) :=
  let assigned := parent_identity ++ "/SubComponent" ++ toString idx1
  let sub3 : SubComponent3 :=
    { identity := assigned,
      roles := comp2.roles,
      role_integration :=
        if pyTruthyOpt comp2.roleIntegration then comp2.roleIntegration else none,
      source_locations := comp2.sourceLocations,
      instance_of := comp2.definition }
  (sub3, (assigned, comp2.identity))

/-- `handle_subcomponent_identity_triple_surgery`: write the working document
as n-triples, run the textual rewrite, re-read.  rdflib's read of an unchanged
write is the same document; otherwise the rewritten lines are re-parsed by the
best-effort read model. -/
def handle_subcomponent_identity_triple_surgery (mappings : List (String × String))
    (doc3 : List Top3) : List Top3 :=
  let lines := serializeDoc3 doc3
  let lines2 := triple_surgery mappings lines
  if lines2 = lines then doc3 else parseDoc3 lines2

/-- `visit_component_definition`. -/
def visit_component_definition (namespaces : Option (List String))
    (cd : ComponentDefinition2) (doc3 : List Top3) : Except ConvErr (List Top3) := do
  let types3 := cd.types.map (pyGetSelf type_map_2to3)
  let ns ← sbol3_namespace namespaces cd.meta.props cd.identity
  let featPairs := cd.components.enum.map (fun p => visit_component cd.identity (p.1 + 1) p.2)
  if cd.sequenceAnnotations ≠ [] then
    throw (.notImplemented "Conversion of ComponentDefinition sequenceAnnotations from SBOL2 to SBOL3 not yet implemented")
  if cd.sequenceConstraints ≠ [] then
    throw (.notImplemented "Conversion of ComponentDefinition sequenceConstraints from SBOL2 to SBOL3 not yet implemented")
  let comp3 : Component3 :=
    { identity := cd.identity, nspace := resolved_namespace ns cd.identity,
      types := types3, roles := cd.roles, sequences := cd.sequences,
      features := featPairs.map (fun p => Feature3.sub p.1),
      interactions := [], constraints := [], interface := none, models := [],
      meta := convert_toplevel cd.version cd.meta }
  pure (handle_subcomponent_identity_triple_surgery (featPairs.map (fun p => p.2))
          (doc3 ++ [Top3.component comp3]))

/-- `visit_collection` (2→3): unlike the other supported kinds, the source
constructs `sbol3.Collection(coll2.identity, members=coll2.members)` with NO
namespace argument — `_sbol3_namespace` is never called here, so the
bookkeeping property and the caller-supplied candidate list are ignored and
the pySBOL3 constructor default (the identity minus its final path segment)
applies.  No raise path. -/
def visit_collection (c2 : Collection2) : Collection3 :=
  { identity := c2.identity, nspace := default_namespace3 c2.identity,
    members := c2.members, meta := convert_toplevel c2.version c2.meta }

/-- `visit_activity` (2→3): the usage/association comprehensions dispatch into
per-element visitors that only raise. -/
def visit_activity (namespaces : Option (List String)) (a2 : Activity2) :
    Except ConvErr Activity3 := do
  let ns ← sbol3_namespace namespaces a2.meta.props a2.identity
  if a2.usages ≠ [] then
    throw (.notImplemented "Conversion of Usage from SBOL2 to SBOL3 not yet implemented")
  if a2.associations ≠ [] then
    throw (.notImplemented "Conversion of Association from SBOL2 to SBOL3 not yet implemented")
  pure { identity := a2.identity, nspace := resolved_namespace ns a2.identity,
         types := if pyTruthyOpt a2.types then [a2.types.getD ""] else [],
         start_time := a2.startedAtTime, end_time := a2.endedAtTime,
         usage := [], association := [],
         meta := convert_toplevel a2.version a2.meta }

/-- `visit_sequence` (2→3). -/
def visit_sequence (namespaces : Option (List String)) (s2 : Sequence2) :
    Except ConvErr Sequence3 := do
  let encoding3 := pyGetSelfOpt encoding_map_2to3 s2.encoding
  let ns ← sbol3_namespace namespaces s2.meta.props s2.identity
  pure { identity := s2.identity, nspace := resolved_namespace ns s2.identity,
         elements := s2.elements, encoding := encoding3,
         meta := convert_toplevel s2.version s2.meta }

/-- `visit_implementation` (2→3). -/
def visit_implementation (namespaces : Option (List String)) (i2 : Implementation2) :
    Except ConvErr Implementation3 := do
  let ns ← sbol3_namespace namespaces i2.meta.props i2.identity
  pure { identity := i2.identity, nspace := resolved_namespace ns i2.identity,
         built := i2.built, meta := convert_toplevel i2.version i2.meta }

/-- Fold step for the component-definition bucket. -/
def step_component_definition (namespaces : Option (List String))
    (d : List Top3) (cd : ComponentDefinition2) : Except ConvErr (List Top3) :=
  visit_component_definition namespaces cd d

/-- Fold step for the sequence bucket. -/
def step_sequence (namespaces : Option (List String)) (d : List Top3)
    (s : Sequence2) : Except ConvErr (List Top3) := do
  let s3 ← visit_sequence namespaces s
  pure (d ++ [Top3.sequence s3])

/-- Fold step for the collection bucket (infallible: `visit_collection` has no
raise path). -/
def step_collection (d : List Top3) (c : Collection2) :
    Except ConvErr (List Top3) :=
  pure (d ++ [Top3.collection (visit_collection c)])

/-- Fold step for the activity bucket. -/
def step_activity (namespaces : Option (List String)) (d : List Top3)
    (a : Activity2) : Except ConvErr (List Top3) := do
  let a3 ← visit_activity namespaces a
  pure (d ++ [Top3.activity a3])

/-- Fold step for the implementation bucket. -/
def step_implementation (namespaces : Option (List String)) (d : List Top3)
    (i : Implementation2) : Except ConvErr (List Top3) := do
  let i3 ← visit_implementation namespaces i
  pure (d ++ [Top3.implementation i3])

/-- `visit_document` (2→3): the fixed kind-bucket order of the source; an
object of an unsupported bucket raises on its first element. -/
def visit_document (namespaces : Option (List String)) (doc2 : Doc2) :
    Except ConvErr (List Top3) := do
  let d3 ← doc2.componentDefinitions.foldlM
    (step_component_definition namespaces) ([] : List Top3)
  if doc2.moduleDefinitions ≠ [] then
    throw (.notImplemented "Conversion of ModuleDefinition from SBOL2 to SBOL3 not yet implemented")
  if doc2.models ≠ [] then
    throw (.notImplemented "Conversion of Model from SBOL2 to SBOL3 not yet implemented")
  let d3 ← doc2.sequences.foldlM (step_sequence namespaces) d3
  let d3 ← doc2.collections.foldlM step_collection d3
  let d3 ← doc2.activities.foldlM (step_activity namespaces) d3
  if doc2.plans ≠ [] then
    throw (.notImplemented "Conversion of Plan from SBOL2 to SBOL3 not yet implemented")
  if doc2.agents ≠ [] then
    throw (.notImplemented "Conversion of Agent from SBOL2 to SBOL3 not yet implemented")
  if doc2.attachments ≠ [] then
    throw (.notImplemented "Conversion of Attachment from SBOL2 to SBOL3 not yet implemented")
  if doc2.combinatorialderivations ≠ [] then
    throw (.notImplemented "Conversion of CombinatorialDerivation from SBOL2 to SBOL3 not yet implemented")
  let d3 ← doc2.implementations.foldlM (step_implementation namespaces) d3
  if doc2.experiments ≠ [] then
    throw (.notImplemented "Conversion of Experiment from SBOL2 to SBOL3 not yet implemented")
  if doc2.experimentalData ≠ [] then
    throw (.notImplemented "Conversion of ExperimentalData from SBOL2 to SBOL3 not yet implemented")
  pure d3

end SBOL2To3

/-- `convert2to3(doc2, namespaces=None)`. -/
def convert2to3 (doc2 : Doc2) (namespaces : Option (List String) := none) :
    Except ConvErr (List Top3) :=
  SBOL2To3.visit_document namespaces doc2

/-! ## Specification-side definition for the identity-rewrite claim -/

/-- Modelled from the spec (§4.4, §6 "Identity-rewrite predicate"): the rewrite
replaces the assigned identity with the desired identity ONLY where it appears
as the subject of the instance-of relation, never elsewhere in the line or the
triple set.  Used solely to compare against the source-derived
`triple_surgery`. -/
def spec_identity_rewrite_line (mappings : List (String × String)) (line : String) : String :=
  mappings.foldl (fun acc m =>
    let subjPred := "<" ++ m.1 ++ "> <http://sbols.org/v3#instanceOf>"
    if pyStartsWith acc subjPred then
      ⟨("<" ++ m.2 ++ "> <http://sbols.org/v3#instanceOf>").data ++
        acc.data.drop subjPred.data.length⟩
    else acc) line

/-- Spec-side rewrite over the whole serialized triple set. -/
def spec_identity_rewrite (mappings : List (String × String)) (lines : List String) :
    List String :=
  lines.map (spec_identity_rewrite_line mappings)

/-! ## Round-trip support definitions -/

/-- Erase the converter's bookkeeping from an object's shared fields: the
backport version property and any backport-namespace property. -/
def eraseIdentB (m : Ident3) : Ident3 :=
  { m with sbol2_version := none,
           props := m.props.filter (fun p => !(pyStartsWith p.1 BACKPORT_NAMESPACE)) }

/-- Erase bookkeeping (backport version / backport namespace properties) from a
top-level object. -/
def eraseBookkeeping : Top3 → Top3
  | .collection c => .collection { c with meta := eraseIdentB c.meta }
  | .component c => .component { c with meta := eraseIdentB c.meta }
  | .sequence s => .sequence { s with meta := eraseIdentB s.meta }
  | .activity a => .activity { a with meta := eraseIdentB a.meta }
  | .implementation i => .implementation { i with meta := eraseIdentB i.meta }
  | .agent id => .agent id
  | .experiment id => .experiment id

def identityOf : Top3 → String
  | .collection c => c.identity
  | .component c => c.identity
  | .sequence s => s.identity
  | .activity a => a.identity
  | .implementation i => i.identity
  | .agent id => id
  | .experiment id => id

/-- The instance-of targets of a component's sub-instances, in feature order. -/
def instanceOfTargets : Top3 → List String
  | .component c => c.features.filterMap (fun f =>
      match f with
      | .sub s => some s.instance_of
      | _ => none)
  | _ => []

/-! Goodness predicates: the hypotheses under which the amended round-trip law
holds (each records one failure mode of the code outside it). -/

/-- No property URI starts with any legacy-core or bookkeeping prefix (the
larger, 2→3 filter set). -/
def goodPropsB (props : List (String × List String)) : Bool :=
  props.all (fun p =>
    !(SBOL2_NON_EXTENSION_PROPERTY_PREFIXES.any (fun pre => pyStartsWith p.1 pre)))

def goodIdent3B (m : Ident3) : Bool :=
  m.measures.isEmpty && goodPropsB m.props

/-- A type term survives the 3→2→3 table composition: either it is covered by
the current→legacy table, or it is not captured by the legacy→current one. -/
def goodTypeB (t : String) : Bool :=
  (type_map_3to2.lookup t).isSome || (type_map_2to3.lookup t).isNone

def goodEncodingB : Option String → Bool
  | none => true
  | some t => (encoding_map_3to2.lookup t).isSome || (encoding_map_2to3.lookup t).isNone

/-- Sub-instances carry the automatic `parent/SubComponentN` identities (in
positional order, 1-based) that the legacy→current construction re-assigns,
and a non-empty role integration. -/
def canonFeaturesB (parent : String) : Nat → List Feature3 → Bool
  | _, [] => true
  | i, Feature3.sub s :: fs =>
      (s.identity == parent ++ "/SubComponent" ++ toString i) &&
      !(s.role_integration == some "") &&
      canonFeaturesB parent (i + 1) fs
  | _, _ :: _ => false

def goodTop3B : Top3 → Bool
  | .collection c =>
      (c.nspace == SBOL2To3.default_namespace3 c.identity) && goodIdent3B c.meta
  | .component c =>
      c.types.all goodTypeB && canonFeaturesB c.identity 1 c.features &&
      c.interactions.isEmpty && c.constraints.isEmpty &&
      c.interface.isNone && c.models.isEmpty && goodIdent3B c.meta
  | .sequence s => goodEncodingB s.encoding && goodIdent3B s.meta
  | .activity a =>
      decide (a.types.length ≤ 1) && a.types.all (fun t => !(t == "")) &&
      a.usage.isEmpty && a.association.isEmpty && goodIdent3B a.meta
  | .implementation i => goodIdent3B i.meta
  | .agent _ => false
  | .experiment _ => false

/-! Pure (error-free) images of the forward per-kind visitors, used to state
what `visit_document` produces when it succeeds. -/

def fwdIdentified (m : Ident3) : Ident2 :=
  { name := SBOL3To2.value_or_property m.props m.name DCTERMS_TITLE,
    description := SBOL3To2.value_or_property m.props m.description DCTERMS_DESCRIPTION,
    wasDerivedFrom := m.derived_from, wasGeneratedBy := m.generated_by,
    attachments := [], props := SBOL3To2.convert_extension_properties m.props }

def fwdToplevel (nspace : String) (m : Ident3) : Ident2 :=
  { fwdIdentified m with
      attachments := m.attachments,
      props := (fwdIdentified m).props ++ [(BACKPORT3_NAMESPACE, [nspace])] }

def fwdCollection (c : Collection3) : Collection2 :=
  { identity := c.identity, version := "1", members := c.members,
    meta := fwdToplevel c.nspace c.meta }

def fwdComponent (c : Component3) : ComponentDefinition2 :=
  { identity := c.identity, version := SBOL3To2.sbol2_version c.meta,
    types := c.types.map (pyGetSelf type_map_3to2), roles := c.roles,
    sequences := c.sequences,
    components := c.features.filterMap (fun f =>
      match f with
      | .sub s => some (SBOL3To2.visit_sub_component s)
      | _ => none),
    sequenceAnnotations := [], sequenceConstraints := [],
    meta := fwdToplevel c.nspace c.meta }

def fwdSequence (s : Sequence3) : Sequence2 :=
  { identity := s.identity, version := SBOL3To2.sbol2_version s.meta,
    elements := s.elements, encoding := pyGetSelfOpt encoding_map_3to2 s.encoding,
    meta := fwdToplevel s.nspace s.meta }

def fwdActivity (a : Activity3) : Activity2 :=
  { identity := a.identity, version := SBOL3To2.sbol2_version a.meta,
    types := a.types.head?, startedAtTime := a.start_time, endedAtTime := a.end_time,
    usages := [], associations := [], meta := fwdToplevel a.nspace a.meta }

def fwdImplementation (i : Implementation3) : Implementation2 :=
  { identity := i.identity, version := SBOL3To2.sbol2_version i.meta,
    built := i.built, meta := fwdToplevel i.nspace i.meta }

/-- Per-kind projections of a document. -/
def top3Components (doc : List Top3) : List Component3 :=
  doc.filterMap (fun t => match t with | .component c => some c | _ => none)

def top3Sequences (doc : List Top3) : List Sequence3 :=
  doc.filterMap (fun t => match t with | .sequence s => some s | _ => none)

def top3Collections (doc : List Top3) : List Collection3 :=
  doc.filterMap (fun t => match t with | .collection c => some c | _ => none)

def top3Activities (doc : List Top3) : List Activity3 :=
  doc.filterMap (fun t => match t with | .activity a => some a | _ => none)

def top3Implementations (doc : List Top3) : List Implementation3 :=
  doc.filterMap (fun t => match t with | .implementation i => some i | _ => none)

/-- The forward image of a good document. -/
def fwdDoc (doc : List Top3) : Doc2 :=
  { componentDefinitions := (top3Components doc).map fwdComponent,
    sequences := (top3Sequences doc).map fwdSequence,
    collections := (top3Collections doc).map fwdCollection,
    activities := (top3Activities doc).map fwdActivity,
    implementations := (top3Implementations doc).map fwdImplementation }

/-- What a full round trip adds to an object: the backport version bookkeeping
property (recording the legacy-side version; `"1"` where the forward direction
does not transport a version, as for collections). -/
def rtTop : Top3 → Top3
  | .collection c =>
      .collection { c with meta := { c.meta with sbol2_version := some "1" } }
  | .component c =>
      .component { c with meta :=
        { c.meta with sbol2_version := some (SBOL3To2.sbol2_version c.meta) } }
  | .sequence s =>
      .sequence { s with meta :=
        { s.meta with sbol2_version := some (SBOL3To2.sbol2_version s.meta) } }
  | .activity a =>
      .activity { a with meta :=
        { a.meta with sbol2_version := some (SBOL3To2.sbol2_version a.meta) } }
  | .implementation i =>
      .implementation { i with meta :=
        { i.meta with sbol2_version := some (SBOL3To2.sbol2_version i.meta) } }
  | .agent id => .agent id
  | .experiment id => .experiment id

/-- Kind index in the order the reverse `visit_document` emits the buckets. -/
def kindIdx : Top3 → Nat
  | .component _ => 0
  | .sequence _ => 1
  | .collection _ => 2
  | .activity _ => 3
  | .implementation _ => 4
  | .agent _ => 5
  | .experiment _ => 6

/-- A good document reordered into the reverse visitor's kind-bucket order. -/
def bucketOrder (doc : List Top3) : List Top3 :=
  doc.filter (fun t => kindIdx t == 0) ++ doc.filter (fun t => kindIdx t == 1) ++
  doc.filter (fun t => kindIdx t == 2) ++ doc.filter (fun t => kindIdx t == 3) ++
  doc.filter (fun t => kindIdx t == 4)

/-- The round-trip image of a good document: its objects in kind-bucket order,
each carrying the added version bookkeeping. -/
def rtDoc (doc : List Top3) : List Top3 :=
  (bucketOrder doc).map rtTop

/-- Shared-field property map of a top-level object. -/
def topProps : Top3 → List (String × List String)
  | .collection c => c.meta.props
  | .component c => c.meta.props
  | .sequence s => s.meta.props
  | .activity a => a.meta.props
  | .implementation i => i.meta.props
  | .agent _ => []
  | .experiment _ => []

/-! Support for the `convert2to3`-with-`None` claim. -/

def backportPresentB (props : List (String × List String)) : Bool :=
  (props.lookup BACKPORT3_NAMESPACE).isSome

def backportSingleB (props : List (String × List String)) : Bool :=
  match props.lookup BACKPORT3_NAMESPACE with
  | some vals => vals.length == 1
  | none => true

/-- The property maps of a legacy document's namespace-resolving objects
(component definitions, sequences, activities, implementations — the four
kinds whose reverse visitors call `_sbol3_namespace`; collections do not), in
the order the reverse `visit_document` reaches them. -/
def doc2ResolverProps (doc2 : Doc2) : List (List (String × List String)) :=
  doc2.componentDefinitions.map (fun cd => cd.meta.props) ++
  doc2.sequences.map (fun s => s.meta.props) ++
  doc2.activities.map (fun a => a.meta.props) ++
  doc2.implementations.map (fun i => i.meta.props)

/-- Every bucket of kinds whose reverse visitor only raises is empty. -/
def doc2SupportedOnlyB (doc2 : Doc2) : Bool :=
  doc2.moduleDefinitions.isEmpty && doc2.models.isEmpty && doc2.plans.isEmpty &&
  doc2.agents.isEmpty && doc2.attachments.isEmpty &&
  doc2.combinatorialderivations.isEmpty && doc2.experiments.isEmpty &&
  doc2.experimentalData.isEmpty

/-- No supported object carries substructure whose reverse conversion raises
(sequence annotations/constraints, activity usages/associations). -/
def doc2ConvertibleB (doc2 : Doc2) : Bool :=
  doc2.componentDefinitions.all (fun cd =>
    cd.sequenceAnnotations.isEmpty && cd.sequenceConstraints.isEmpty) &&
  doc2.activities.all (fun a => a.usages.isEmpty && a.associations.isEmpty)

deriving instance DecidableEq for Except

/-- A small good document exercising the round-trip law: a DNA component with
two nested sub-instances pointing at two sequences, plus a collection whose
namespace is the identity-derived default (the only kind of collection the
reverse visitor can reproduce). -/
def roundtrip_example_doc : List Top3 :=
  [Top3.component
    { identity := "u:c", nspace := "u:n", types := [SBO_DNA],
      features := [Feature3.sub { identity := "u:c/SubComponent1", instance_of := "u:s1" },
                   Feature3.sub { identity := "u:c/SubComponent2", instance_of := "u:s2" }] },
   Top3.sequence { identity := "u:s1", nspace := "u:n", elements := some "ac",
                   encoding := some IUPAC_DNA_ENCODING },
   Top3.sequence { identity := "u:s2", nspace := "u:n", elements := some "gg",
                   encoding := some IUPAC_DNA_ENCODING },
   Top3.collection { identity := "http://x/y/coll", nspace := "http://x/y",
                     members := ["u:c"] }]

end SBOLConv

namespace SBOLConv

/-! # Theorems

First the shared helper lemmas, then one theorem per claim (with witnesses and
counterexamples where required). -/

theorem containsSub_of_prefix {hay needle : List Char}
    (h : needle.isPrefixOf hay = true) : containsSub hay needle = true := by
  cases hay with
  | nil =>
    cases needle with
    | nil => rfl
    | cons c t => simp [List.isPrefixOf] at h
  | cons c t => simp [containsSub, h]

theorem replaceSubFuel_self (needle : List Char) :
    ∀ (f : Nat) (hay : List Char), replaceSubFuel needle needle f hay = hay := by
  intro f
  induction f with
  | zero =>
    intro hay
    cases hay <;> rfl
  | succ f ih =>
    intro hay
    cases hay with
    | nil => rfl
    | cons c t =>
      rw [replaceSubFuel]
      split
      · rename_i hcond
        obtain ⟨rest, hrest⟩ := List.isPrefixOf_iff_prefix.mp hcond.1
        rw [ih, ← hrest, List.drop_left]
      · rw [ih]

theorem replaceSub_self (hay needle : List Char) :
    replaceSub hay needle needle = hay := by
  rw [replaceSub, replaceSubFuel_self]

theorem pyReplace_self (s o : String) : pyReplace s o o = s := by
  unfold pyReplace
  split
  · rename_i h
    rw [h]
    have hflat : ∀ l : List Char, (l.map (fun c => [c])).flatten = l := by
      intro l
      induction l with
      | nil => rfl
      | cons c t ih => simpa using ih
    simp only [List.append_nil, List.nil_append, hflat]
  · rw [replaceSub_self]

theorem surgery_line_trivial (ms : List (String × String)) (line : String)
    (h : ∀ m ∈ ms, m.1 = m.2) : surgery_line ms line = line := by
  unfold surgery_line
  induction ms with
  | nil => rfl
  | cons m ms ih =>
    have hm := h m (List.mem_cons_self m ms)
    have hrest : ∀ x ∈ ms, x.1 = x.2 := fun x hx => h x (List.mem_cons_of_mem m hx)
    simp only [List.foldl_cons]
    rw [show (if pyIn ("<" ++ m.1 ++ "> <http://sbols.org/v3#instanceOf>") line = true then
          pyReplace line m.1 m.2 else line) = line by
      split
      · rw [← hm, pyReplace_self]
      · rfl]
    exact ih hrest

theorem triple_surgery_trivial (ms : List (String × String)) (lines : List String)
    (h : ∀ m ∈ ms, m.1 = m.2) : triple_surgery ms lines = lines := by
  unfold triple_surgery
  induction lines with
  | nil => rfl
  | cons l ls ih =>
    simp only [List.map_cons, surgery_line_trivial ms l h] at ih ⊢
    rw [ih]

theorem handle_surgery_trivial (ms : List (String × String)) (doc : List Top3)
    (h : ∀ m ∈ ms, m.1 = m.2) :
    SBOL2To3.handle_subcomponent_identity_triple_surgery ms doc = doc := by
  unfold SBOL2To3.handle_subcomponent_identity_triple_surgery
  simp only [triple_surgery_trivial ms (serializeDoc3 doc) h, if_pos]


set_option maxRecDepth 100000

/-! ## C3: the identity-rewrite pass -/

theorem surgery_line_no_match (ms : List (String × String)) (line : String)
    (h : ∀ m ∈ ms, pyIn ("<" ++ m.1 ++ "> <http://sbols.org/v3#instanceOf>") line = false) :
    surgery_line ms line = line := by
  unfold surgery_line
  induction ms with
  | nil => rfl
  | cons m ms ih =>
    have hm := h m (List.mem_cons_self m ms)
    have hrest : ∀ x ∈ ms, pyIn ("<" ++ x.1 ++ "> <http://sbols.org/v3#instanceOf>") line = false :=
      fun x hx => h x (List.mem_cons_of_mem m hx)
    simp only [List.foldl_cons, hm, Bool.false_eq_true, if_false]
    exact ih hrest

theorem pyIn_of_prefix (needle rest : String) : pyIn needle (needle ++ rest) = true := by
  unfold pyIn
  apply containsSub_of_prefix
  rw [String.data_append]
  exact List.isPrefixOf_iff_prefix.mpr (List.prefix_append _ _)

/-- C3 (counterexample): the rewrite is NOT scoped to the subject position: on
the triple `<A> <instanceOf> <A> .` with recorded mapping `A → D`, the code
replaces the object occurrence as well, diverging from the spec-side rewrite
that only replaces the subject. -/
theorem C3_rewrite_counterexample :
    triple_surgery [("u:c/SubComponent1", "u:c/sc1")]
        ["<u:c/SubComponent1> <http://sbols.org/v3#instanceOf> <u:c/SubComponent1> ."] =
      ["<u:c/sc1> <http://sbols.org/v3#instanceOf> <u:c/sc1> ."] ∧
    spec_identity_rewrite [("u:c/SubComponent1", "u:c/sc1")]
        ["<u:c/SubComponent1> <http://sbols.org/v3#instanceOf> <u:c/SubComponent1> ."] =
      ["<u:c/sc1> <http://sbols.org/v3#instanceOf> <u:c/SubComponent1> ."] ∧
    triple_surgery [("u:c/SubComponent1", "u:c/sc1")]
        ["<u:c/SubComponent1> <http://sbols.org/v3#instanceOf> <u:c/SubComponent1> ."] ≠
      spec_identity_rewrite [("u:c/SubComponent1", "u:c/sc1")]
        ["<u:c/SubComponent1> <http://sbols.org/v3#instanceOf> <u:c/SubComponent1> ."] := by
  refine ⟨by decide, by decide, by decide⟩

/-- C3 (amended): matching is exact on the instance-of predicate and scoped to
lines whose (subject, predicate) prefix matches — any line in which no recorded
assigned identity is directly followed by the instance-of predicate is left
byte-for-byte unchanged — but within a matched line the code applies Python
`str.replace`, which replaces every occurrence of the assigned identity in
that line (object position included), not only the subject. -/
theorem C3_rewrite_amended (ms : List (String × String)) (line : String)
    (o n rest : String)
    (h : ∀ m ∈ ms, pyIn ("<" ++ m.1 ++ "> <http://sbols.org/v3#instanceOf>") line = false) :
    surgery_line ms line = line ∧
    surgery_line [(o, n)] ("<" ++ o ++ "> <http://sbols.org/v3#instanceOf>" ++ rest) =
      pyReplace ("<" ++ o ++ "> <http://sbols.org/v3#instanceOf>" ++ rest) o n := by
  constructor
  · exact surgery_line_no_match ms line h
  · unfold surgery_line
    simp only [List.foldl_cons, List.foldl_nil]
    rw [if_pos]
    have := pyIn_of_prefix ("<" ++ o ++ "> <http://sbols.org/v3#instanceOf>") rest
    simpa using this

/-- C3 (witness). -/
theorem C3_rewrite_witness :
    surgery_line [("u:x", "u:y")] "<u:z> <http://sbols.org/v3#instanceOf> <u:x2> ." =
      "<u:z> <http://sbols.org/v3#instanceOf> <u:x2> ." ∧
    surgery_line [("u:x", "u:y")] ("<" ++ "u:x" ++ "> <http://sbols.org/v3#instanceOf>" ++ " <u:t> .") =
      pyReplace ("<" ++ "u:x" ++ "> <http://sbols.org/v3#instanceOf>" ++ " <u:t> .") "u:x" "u:y" :=
  C3_rewrite_amended [("u:x", "u:y")] "<u:z> <http://sbols.org/v3#instanceOf> <u:x2> ."
    "u:x" "u:y" " <u:t> ." (by decide)

/-! ## C4: remap tables as inverses -/

/-- C4 (counterexample): the plain BioPAX DNA term is covered by the
legacy→current type table, but mapping legacy→current then current→legacy
returns the Region form, not the original term: the two directions are not
true inverses for every covered term. -/
theorem C4_table_inverse_counterexample :
    pyGetSelf type_map_2to3 BIOPAX_DNA_PLAIN = SBO_DNA ∧
    pyGetSelf type_map_3to2 (pyGetSelf type_map_2to3 BIOPAX_DNA_PLAIN) = BIOPAX_DNA ∧
    pyGetSelf type_map_3to2 (pyGetSelf type_map_2to3 BIOPAX_DNA_PLAIN) ≠ BIOPAX_DNA_PLAIN := by
  refine ⟨by decide, by decide, by decide⟩

/-- C4 (amended): both compositions return every covered term unchanged —
current→legacy then legacy→current over the current→legacy type and encoding
tables, and legacy→current then current→legacy over the legacy→current
encoding table — except for the two one-way plain BioPAX aliases (`#Dna`,
`#Rna`) in the legacy→current type table, which map to the Region forms. -/
theorem C4_table_inverse_amended :
    ((type_map_3to2.map Prod.fst).all
      (fun t => pyGetSelf type_map_2to3 (pyGetSelf type_map_3to2 t) == t)) = true ∧
    ((encoding_map_3to2.map Prod.fst).all
      (fun t => pyGetSelf encoding_map_2to3 (pyGetSelf encoding_map_3to2 t) == t)) = true ∧
    ((encoding_map_2to3.map Prod.fst).all
      (fun t => pyGetSelf encoding_map_3to2 (pyGetSelf encoding_map_2to3 t) == t)) = true ∧
    ((type_map_2to3.map Prod.fst).all
      (fun t => (pyGetSelf type_map_3to2 (pyGetSelf type_map_2to3 t) == t) ||
                (t == BIOPAX_DNA_PLAIN) || (t == BIOPAX_RNA_PLAIN))) = true ∧
    pyGetSelf type_map_3to2 (pyGetSelf type_map_2to3 BIOPAX_RNA_PLAIN) ≠ BIOPAX_RNA_PLAIN := by
  refine ⟨by decide, by decide, by decide, by decide, by decide⟩

/-! ## C5: namespace resolution priority -/

theorem sbol3_namespace_single_ok (nss : Option (List String))
    (props : List (String × List String)) (identity v : String)
    (h : props.lookup BACKPORT3_NAMESPACE = some [v]) :
    SBOL2To3.sbol3_namespace nss props identity = Except.ok (some v) := by
  simp [SBOL2To3.sbol3_namespace, h, pure, Except.pure]

theorem sbol3_namespace_multi_err (nss : Option (List String))
    (props : List (String × List String)) (identity : String)
    (vs : List String) (hvs : props.lookup BACKPORT3_NAMESPACE = some vs)
    (hlen : vs.length ≠ 1) :
    SBOL2To3.sbol3_namespace nss props identity =
      Except.error (ConvErr.valueError identity) := by
  rcases vs with _ | ⟨v, _ | ⟨v2, rest⟩⟩
  · simp [SBOL2To3.sbol3_namespace, hvs, throw, throwThe, MonadExceptOf.throw]
  · simp at hlen
  · simp [SBOL2To3.sbol3_namespace, hvs, throw, throwThe, MonadExceptOf.throw]

/-- C5 (counterexample): the priority scheme does NOT govern every converted
legacy top-level object — the reverse `visit_collection` constructs the
collection without a namespace argument, so a collection whose bookkeeping
namespace property is multi-valued converts WITHOUT the claimed fatal
`ValueError`, the recorded values are ignored, and the resulting namespace is
the library default derived from the identity (neither recorded value). -/
theorem C5_namespace_counterexample :
    convert2to3
        { collections := [{ identity := "http://x/y/c",
                            meta := { props :=
                              [(BACKPORT3_NAMESPACE,
                                ["http://n1/", "http://n2/"])] } }] }
        none =
      Except.ok [Top3.collection
        { identity := "http://x/y/c", nspace := "http://x/y", members := [],
          meta := { sbol2_version := some "1", props := [] } }] ∧
    "http://x/y" ≠ "http://n1/" ∧ "http://x/y" ≠ "http://n2/" := by
  refine ⟨by decide, by decide, by decide⟩

/-- C5 (amended): the four legacy kinds whose reverse visitors call
`_sbol3_namespace` — component definitions, sequences, activities,
implementations — follow the claimed first-match-wins priority: a
single-valued bookkeeping namespace property is used verbatim as the new
namespace (winning over any candidate prefix), an absent property falls back
to the first caller-supplied candidate prefix of the identity, and a present
bookkeeping property with other than exactly one value raises a fatal
`ValueError` naming the object, in each of those four visitors.  Collections
are the exception: their visitor constructs the object without a namespace
argument, never consults the bookkeeping property or the candidate list,
cannot raise, and always assigns the library-default namespace derived from
the identity. -/
theorem C5_namespace_amended (nss : Option (List String)) (namespaces : List String)
    (props : List (String × List String)) (identity : String)
    (cd : ComponentDefinition2) (s2 : Sequence2) (a2 : Activity2)
    (i2 : Implementation2) (c2 : Collection2) :
    (∀ v, props.lookup BACKPORT3_NAMESPACE = some [v] →
        SBOL2To3.sbol3_namespace (some namespaces) props identity = Except.ok (some v)) ∧
    (props.lookup BACKPORT3_NAMESPACE = none →
        SBOL2To3.sbol3_namespace (some namespaces) props identity =
          Except.ok (namespaces.find? (fun n => pyStartsWith identity n))) ∧
    (∀ vs, props.lookup BACKPORT3_NAMESPACE = some vs → vs.length ≠ 1 →
        SBOL2To3.sbol3_namespace (some namespaces) props identity =
          Except.error (ConvErr.valueError identity)) ∧
    (∀ vs, cd.meta.props.lookup BACKPORT3_NAMESPACE = some vs → vs.length ≠ 1 →
        SBOL2To3.visit_component_definition nss cd [] =
          Except.error (ConvErr.valueError cd.identity)) ∧
    (∀ vs, s2.meta.props.lookup BACKPORT3_NAMESPACE = some vs → vs.length ≠ 1 →
        SBOL2To3.visit_sequence nss s2 = Except.error (ConvErr.valueError s2.identity)) ∧
    (∀ vs, a2.meta.props.lookup BACKPORT3_NAMESPACE = some vs → vs.length ≠ 1 →
        SBOL2To3.visit_activity nss a2 = Except.error (ConvErr.valueError a2.identity)) ∧
    (∀ vs, i2.meta.props.lookup BACKPORT3_NAMESPACE = some vs → vs.length ≠ 1 →
        SBOL2To3.visit_implementation nss i2 =
          Except.error (ConvErr.valueError i2.identity)) ∧
    (∀ v, s2.meta.props.lookup BACKPORT3_NAMESPACE = some [v] →
        ∃ out, SBOL2To3.visit_sequence nss s2 = Except.ok out ∧ out.nspace = v) ∧
    (∀ v, a2.meta.props.lookup BACKPORT3_NAMESPACE = some [v] →
        a2.usages = [] → a2.associations = [] →
        ∃ out, SBOL2To3.visit_activity nss a2 = Except.ok out ∧ out.nspace = v) ∧
    (∀ v, i2.meta.props.lookup BACKPORT3_NAMESPACE = some [v] →
        ∃ out, SBOL2To3.visit_implementation nss i2 = Except.ok out ∧ out.nspace = v) ∧
    (SBOL2To3.visit_collection c2).nspace = SBOL2To3.default_namespace3 c2.identity ∧
    (∀ d, SBOL2To3.step_collection d c2 =
        Except.ok (d ++ [Top3.collection (SBOL2To3.visit_collection c2)])) := by
  refine ⟨?_, ?_, ?_, ?_, ?_, ?_, ?_, ?_, ?_, ?_, rfl, fun d => rfl⟩
  · intro v hv
    exact sbol3_namespace_single_ok (some namespaces) props identity v hv
  · intro h
    simp [SBOL2To3.sbol3_namespace, h, pure, Except.pure]
  · intro vs hvs hlen
    exact sbol3_namespace_multi_err (some namespaces) props identity vs hvs hlen
  · intro vs hvs hlen
    simp [SBOL2To3.visit_component_definition,
      sbol3_namespace_multi_err nss _ _ vs hvs hlen, Bind.bind, Except.bind]
  · intro vs hvs hlen
    simp [SBOL2To3.visit_sequence,
      sbol3_namespace_multi_err nss _ _ vs hvs hlen, Bind.bind, Except.bind]
  · intro vs hvs hlen
    simp [SBOL2To3.visit_activity,
      sbol3_namespace_multi_err nss _ _ vs hvs hlen, Bind.bind, Except.bind]
  · intro vs hvs hlen
    simp [SBOL2To3.visit_implementation,
      sbol3_namespace_multi_err nss _ _ vs hvs hlen, Bind.bind, Except.bind]
  · intro v hv
    simp only [SBOL2To3.visit_sequence, sbol3_namespace_single_ok nss _ _ v hv,
      Bind.bind, Except.bind, pure, Except.pure]
    exact ⟨_, rfl, rfl⟩
  · intro v hv hu hassoc
    simp only [SBOL2To3.visit_activity, sbol3_namespace_single_ok nss _ _ v hv,
      hu, hassoc, Bind.bind, Except.bind, pure, Except.pure]
    exact ⟨_, rfl, rfl⟩
  · intro v hv
    simp only [SBOL2To3.visit_implementation, sbol3_namespace_single_ok nss _ _ v hv,
      Bind.bind, Except.bind, pure, Except.pure]
    exact ⟨_, rfl, rfl⟩

/-- C5 (witness): bookkeeping `N1` wins over the candidate prefix `N2`; an
absent property falls back to the candidate; a multi-valued property is fatal
for a sequence but NOT for a collection, which gets the identity-derived
default namespace; an implementation uses a single-valued property
verbatim. -/
theorem C5_namespace_amended_witness :
    SBOL2To3.sbol3_namespace (some ["http://N2/"])
        [(BACKPORT3_NAMESPACE, ["http://N1/"])] "http://N2/x" =
      Except.ok (some "http://N1/") ∧
    SBOL2To3.sbol3_namespace (some ["http://N2/"]) [] "http://N2/x" =
      Except.ok (some "http://N2/") ∧
    SBOL2To3.visit_sequence none
        { identity := "u:s",
          meta := { props := [(BACKPORT3_NAMESPACE, ["u:a", "u:b"])] } } =
      Except.error (ConvErr.valueError "u:s") ∧
    (∃ out, SBOL2To3.visit_implementation none
        { identity := "u:i",
          meta := { props := [(BACKPORT3_NAMESPACE, ["http://N1/"])] } } =
      Except.ok out ∧ out.nspace = "http://N1/") ∧
    (SBOL2To3.visit_collection { identity := "http://x/y/c" }).nspace =
      SBOL2To3.default_namespace3 "http://x/y/c" := by
  refine ⟨(C5_namespace_amended none ["http://N2/"]
      [(BACKPORT3_NAMESPACE, ["http://N1/"])] "http://N2/x" { identity := "u:cd" }
      { identity := "u:s" } { identity := "u:a" } { identity := "u:i" }
      { identity := "u:c" }).1 "http://N1/" (by decide),
    ?_,
    (C5_namespace_amended none [] [] "u:x" { identity := "u:cd" }
      { identity := "u:s",
        meta := { props := [(BACKPORT3_NAMESPACE, ["u:a", "u:b"])] } }
      { identity := "u:a" } { identity := "u:i" }
      { identity := "u:c" }).2.2.2.2.1 ["u:a", "u:b"] (by decide) (by decide),
    (C5_namespace_amended none [] [] "u:x" { identity := "u:cd" }
      { identity := "u:s" } { identity := "u:a" }
      { identity := "u:i",
        meta := { props := [(BACKPORT3_NAMESPACE, ["http://N1/"])] } }
      { identity := "u:c" }).2.2.2.2.2.2.2.2.2.1 "http://N1/" (by decide),
    (C5_namespace_amended none [] [] "u:x" { identity := "u:cd" }
      { identity := "u:s" } { identity := "u:a" } { identity := "u:i" }
      { identity := "http://x/y/c" }).2.2.2.2.2.2.2.2.2.2.1⟩
  have := (C5_namespace_amended none ["http://N2/"] [] "http://N2/x"
    { identity := "u:cd" } { identity := "u:s" } { identity := "u:a" }
    { identity := "u:i" } { identity := "u:c" }).2.1 (by decide)
  rw [this]
  decide

/-! ## C7: multi-type activities are rejected -/

/-- C7: converting an Activity with more than one declared process type from
the current to the legacy schema raises an explicit error — no type is
silently dropped and the first type is never silently taken — and the error is
fatal to `convert3to2` of the enclosing document. -/
theorem C7_multitype_activity (a : Activity3) (h : 2 ≤ a.types.length) :
    SBOL3To2.visit_activity a =
      Except.error (ConvErr.notImplemented
        "Conversion of multi-type Activities to SBOL2 not yet implemented") ∧
    convert3to2 [Top3.activity a] =
      Except.error (ConvErr.notImplemented
        "Conversion of multi-type Activities to SBOL2 not yet implemented") := by
  have hvis : SBOL3To2.visit_activity a =
      Except.error (ConvErr.notImplemented
        "Conversion of multi-type Activities to SBOL2 not yet implemented") := by
    rcases ha : a.types with _ | ⟨t1, tl⟩
    · rw [ha] at h
      simp at h
    · rcases tl with _ | ⟨t2, ts⟩
      · rw [ha] at h
        simp at h
      · simp [SBOL3To2.visit_activity, ha, throw, throwThe, MonadExceptOf.throw,
          Bind.bind, Except.bind]
  refine ⟨hvis, ?_⟩
  simp [convert3to2, SBOL3To2.visit_document, List.foldlM_cons, SBOL3To2.accept,
    hvis, Bind.bind, Except.bind]

/-- C7 (witness). -/
theorem C7_multitype_activity_witness :
    SBOL3To2.visit_activity
        { identity := "u:a", nspace := "u:n", types := ["u:t1", "u:t2"] } =
      Except.error (ConvErr.notImplemented
        "Conversion of multi-type Activities to SBOL2 not yet implemented") ∧
    convert3to2 [Top3.activity
        { identity := "u:a", nspace := "u:n", types := ["u:t1", "u:t2"] }] =
      Except.error (ConvErr.notImplemented
        "Conversion of multi-type Activities to SBOL2 not yet implemented") :=
  C7_multitype_activity
    { identity := "u:a", nspace := "u:n", types := ["u:t1", "u:t2"] } (by decide)

/-! ## C8: pass-through of unmapped vocabulary terms -/

/-- C8: a vocabulary term absent from a remap table (type or encoding, either
direction) passes through unchanged instead of raising, and in both sequence
visitors the output object carries the unmapped encoding term unchanged. -/
theorem C8_passthrough (t : String) :
    (type_map_3to2.lookup t = none → pyGetSelf type_map_3to2 t = t) ∧
    (type_map_2to3.lookup t = none → pyGetSelf type_map_2to3 t = t) ∧
    (encoding_map_3to2.lookup t = none → pyGetSelfOpt encoding_map_3to2 (some t) = some t) ∧
    (encoding_map_2to3.lookup t = none → pyGetSelfOpt encoding_map_2to3 (some t) = some t) ∧
    (∀ (s3 : Sequence3) (out : Sequence2), SBOL3To2.visit_sequence s3 = Except.ok out →
        encoding_map_3to2.lookup t = none → s3.encoding = some t → out.encoding = some t) ∧
    (∀ (nss : Option (List String)) (s2 : Sequence2) (out : Sequence3),
        SBOL2To3.visit_sequence nss s2 = Except.ok out →
        encoding_map_2to3.lookup t = none → s2.encoding = some t → out.encoding = some t) := by
  refine ⟨fun h => by simp [pyGetSelf, h],
    fun h => by simp [pyGetSelf, h],
    fun h => by simp [pyGetSelfOpt, pyGetSelf, h],
    fun h => by simp [pyGetSelfOpt, pyGetSelf, h], ?_, ?_⟩
  · intro s3 out hok hnone henc
    unfold SBOL3To2.visit_sequence at hok
    cases hct : SBOL3To2.convert_toplevel s3.nspace s3.meta with
    | error e =>
      rw [hct] at hok
      simp [Bind.bind, Except.bind] at hok
    | ok m2 =>
      rw [hct] at hok
      simp [Bind.bind, Except.bind, pure, Except.pure] at hok
      rw [← hok]
      simp [henc, pyGetSelfOpt, pyGetSelf, hnone]
  · intro nss s2 out hok hnone henc
    unfold SBOL2To3.visit_sequence at hok
    cases hns : SBOL2To3.sbol3_namespace nss s2.meta.props s2.identity with
    | error e =>
      rw [hns] at hok
      simp [Bind.bind, Except.bind] at hok
    | ok ns =>
      rw [hns] at hok
      simp [Bind.bind, Except.bind, pure, Except.pure] at hok
      rw [← hok]
      simp [henc, pyGetSelfOpt, pyGetSelf, hnone]

/-- C8 (witness): a custom ontology term survives both directions. -/
theorem C8_passthrough_witness :
    pyGetSelf type_map_3to2 "u:custom" = "u:custom" ∧
    pyGetSelf type_map_2to3 "u:custom" = "u:custom" ∧
    pyGetSelfOpt encoding_map_3to2 (some "u:custom") = some "u:custom" ∧
    pyGetSelfOpt encoding_map_2to3 (some "u:custom") = some "u:custom" :=
  ⟨(C8_passthrough "u:custom").1 (by decide),
   (C8_passthrough "u:custom").2.1 (by decide),
   (C8_passthrough "u:custom").2.2.1 (by decide),
   (C8_passthrough "u:custom").2.2.2.1 (by decide)⟩

/-! ## C9: configuration state is restored -/

/-- C9: `convert3to2` saves the process-wide pySBOL2 configuration (the
compliant-URIs option and the homespace), overrides it for the conversion, and
the `finally` block restores exactly the saved values whether the conversion
returns or raises: the post-call configuration always equals the pre-call
configuration, and the result is that of the conversion body. -/
theorem C9_config_restored (doc3 : List Top3) (cfg : SBOL2Config) :
    (convert3to2_stateful doc3 cfg).2 = cfg ∧
    (convert3to2_stateful doc3 cfg).1 = convert3to2 doc3 := by
  constructor
  · rfl
  · rfl


/-! ## Forward per-kind success lemmas -/

theorem convert_identified_ok (m : Ident3) (h : m.measures = []) :
    SBOL3To2.convert_identified m = Except.ok (fwdIdentified m) := by
  simp [SBOL3To2.convert_identified, h, fwdIdentified, Bind.bind, Except.bind,
    pure, Except.pure]

theorem convert_toplevel_ok (ns : String) (m : Ident3) (h : m.measures = []) :
    SBOL3To2.convert_toplevel ns m = Except.ok (fwdToplevel ns m) := by
  simp [SBOL3To2.convert_toplevel, convert_identified_ok m h, fwdToplevel,
    Bind.bind, Except.bind, pure, Except.pure]

theorem visit_collection_ok (c : Collection3) (h : c.meta.measures = []) :
    SBOL3To2.visit_collection c = Except.ok (fwdCollection c) := by
  simp [SBOL3To2.visit_collection, convert_toplevel_ok _ _ h, fwdCollection,
    Bind.bind, Except.bind, pure, Except.pure]

theorem visit_sequence_ok (s : Sequence3) (h : s.meta.measures = []) :
    SBOL3To2.visit_sequence s = Except.ok (fwdSequence s) := by
  simp [SBOL3To2.visit_sequence, convert_toplevel_ok _ _ h, fwdSequence,
    Bind.bind, Except.bind, pure, Except.pure]

theorem visit_implementation_ok (i : Implementation3) (h : i.meta.measures = []) :
    SBOL3To2.visit_implementation i = Except.ok (fwdImplementation i) := by
  simp [SBOL3To2.visit_implementation, convert_toplevel_ok _ _ h, fwdImplementation,
    Bind.bind, Except.bind, pure, Except.pure]

theorem visit_activity_ok (a : Activity3) (hlen : a.types.length ≤ 1)
    (hu : a.usage = []) (hassoc : a.association = []) (hm : a.meta.measures = []) :
    SBOL3To2.visit_activity a = Except.ok (fwdActivity a) := by
  rcases ht : a.types with _ | ⟨t, tl⟩
  · simp [SBOL3To2.visit_activity, ht, hu, hassoc, convert_toplevel_ok _ _ hm,
      fwdActivity, Bind.bind, Except.bind, pure, Except.pure]
  · rcases tl with _ | ⟨t2, ts⟩
    · simp [SBOL3To2.visit_activity, ht, hu, hassoc, convert_toplevel_ok _ _ hm,
        fwdActivity, Bind.bind, Except.bind, pure, Except.pure]
    · rw [ht] at hlen
      simp at hlen

theorem features_fold_error (fs : List Feature3) :
    ∀ (acc : List Component2) (fid : String), Feature3.otherFeature fid ∈ fs →
      fs.foldlM SBOL3To2.sub_component_step acc =
        Except.error (ConvErr.notImplemented
          "Conversion of Component features from SBOL3 to SBOL2 not yet implemented") := by
  induction fs with
  | nil =>
    intro acc fid h
    simp at h
  | cons f fs ih =>
    intro acc fid h
    rw [List.foldlM_cons]
    cases f with
    | sub s =>
      have hmem : Feature3.otherFeature fid ∈ fs := by
        rcases List.mem_cons.mp h with h1 | h2
        · exact absurd h1 (by simp)
        · exact h2
      simp [SBOL3To2.sub_component_step, Bind.bind, Except.bind, pure, Except.pure,
        ih _ _ hmem]
    | componentReference g =>
      have hmem : Feature3.otherFeature fid ∈ fs := by
        rcases List.mem_cons.mp h with h1 | h2
        · exact absurd h1 (by simp)
        · exact h2
      simp [SBOL3To2.sub_component_step, Bind.bind, Except.bind, pure, Except.pure,
        ih _ _ hmem]
    | otherFeature g =>
      simp [SBOL3To2.sub_component_step, Bind.bind, Except.bind, throw, throwThe,
        MonadExceptOf.throw]

theorem features_fold_ok (fs : List Feature3) :
    ∀ (acc : List Component2), (∀ fid, Feature3.otherFeature fid ∉ fs) →
      fs.foldlM SBOL3To2.sub_component_step acc =
        Except.ok (acc ++ fs.filterMap (fun f =>
          match f with
          | .sub s => some (SBOL3To2.visit_sub_component s)
          | _ => none)) := by
  induction fs with
  | nil =>
    intro acc _
    simp [List.foldlM_nil, pure, Except.pure]
  | cons f fs ih =>
    intro acc h
    have hrest : ∀ fid, Feature3.otherFeature fid ∉ fs := fun fid hf =>
      h fid (List.mem_cons_of_mem f hf)
    rw [List.foldlM_cons]
    cases f with
    | sub s =>
      simp [SBOL3To2.sub_component_step, Bind.bind, Except.bind, pure, Except.pure,
        ih _ hrest, List.filterMap_cons]
    | componentReference g =>
      simp [SBOL3To2.sub_component_step, Bind.bind, Except.bind, pure, Except.pure,
        ih _ hrest, List.filterMap_cons]
    | otherFeature g =>
      exact absurd (List.mem_cons_self _ _) (h g)

theorem visit_component_error_of_other (c : Component3) (fid : String)
    (h : Feature3.otherFeature fid ∈ c.features) :
    SBOL3To2.visit_component c =
      Except.error (ConvErr.notImplemented
        "Conversion of Component features from SBOL3 to SBOL2 not yet implemented") := by
  simp [SBOL3To2.visit_component, features_fold_error c.features [] fid h,
    Bind.bind, Except.bind]

theorem visit_component_ok (c : Component3)
    (hf : ∀ fid, Feature3.otherFeature fid ∉ c.features)
    (hi : c.interface = none) (hmo : c.models = []) (hme : c.meta.measures = []) :
    SBOL3To2.visit_component c = Except.ok (fwdComponent c) := by
  simp [SBOL3To2.visit_component, features_fold_ok c.features [] hf, hi, hmo,
    convert_toplevel_ok _ _ hme, fwdComponent, Bind.bind, Except.bind,
    pure, Except.pure]

/-! ## C2: unsupported constructs -/

/-- C2 (counterexample): an unsupported object inside a Component does NOT
make the conversion fail: a Component carrying an interaction, a constraint,
and a ComponentReference feature (all of whose visitors only raise
`NotImplementedError`) converts successfully — the errors are caught and
printed, the objects are dropped, and a partial legacy document is returned. -/
theorem C2_unsupported_counterexample :
    convert3to2 [Top3.component
        { identity := "u:c", nspace := "u:n",
          features := [Feature3.componentReference "u:f"],
          interactions := ["u:i"], constraints := ["u:k"] }] =
      Except.ok (fwdDoc [Top3.component
        { identity := "u:c", nspace := "u:n",
          features := [Feature3.componentReference "u:f"],
          interactions := ["u:i"], constraints := ["u:k"] }]) ∧
    (fwdDoc [Top3.component
        { identity := "u:c", nspace := "u:n",
          features := [Feature3.componentReference "u:f"],
          interactions := ["u:i"], constraints := ["u:k"] }]).componentDefinitions.map
      (fun cd => cd.components) = [[]] := by
  refine ⟨by decide, by decide⟩

/-- C2 (amended): unsupported top-level kinds (for example Agent, Experiment
forward; ModuleDefinition reverse) raise an uncaught `NotImplementedError`
naming the kind, fatal to the enclosing document conversion, and an
unrecognized feature kind inside a Component is likewise fatal; but
`ComponentReference` features, interactions and constraints inside
`visit_component` are caught, reported and skipped, so those unsupported
objects yield a partial converted document instead of an error. -/
theorem C2_unsupported_amended (id fid : String) (c : Component3) (doc2 : Doc2) :
    (convert3to2 [Top3.agent id] =
      Except.error (ConvErr.notImplemented
        "Conversion of Agent from SBOL3 to SBOL2 not yet implemented")) ∧
    (convert3to2 [Top3.experiment id] =
      Except.error (ConvErr.notImplemented
        "Conversion of Experiment from SBOL3 to SBOL2 not yet implemented")) ∧
    (Feature3.otherFeature fid ∈ c.features →
      SBOL3To2.visit_component c =
        Except.error (ConvErr.notImplemented
          "Conversion of Component features from SBOL3 to SBOL2 not yet implemented")) ∧
    ((∀ g, Feature3.otherFeature g ∉ c.features) → c.interface = none →
      c.models = [] → c.meta.measures = [] →
      SBOL3To2.visit_component c = Except.ok (fwdComponent c)) ∧
    (doc2.componentDefinitions = [] → doc2.moduleDefinitions ≠ [] →
      convert2to3 doc2 none =
        Except.error (ConvErr.notImplemented
          "Conversion of ModuleDefinition from SBOL2 to SBOL3 not yet implemented")) := by
  refine ⟨?_, ?_, fun h => visit_component_error_of_other c fid h,
    fun hf hi hmo hme => visit_component_ok c hf hi hmo hme, ?_⟩
  · simp [convert3to2, SBOL3To2.visit_document, List.foldlM_cons, SBOL3To2.accept,
      Bind.bind, Except.bind, throw, throwThe, MonadExceptOf.throw]
  · simp [convert3to2, SBOL3To2.visit_document, List.foldlM_cons, SBOL3To2.accept,
      Bind.bind, Except.bind, throw, throwThe, MonadExceptOf.throw]
  · intro hcd hmd
    simp [convert2to3, SBOL2To3.visit_document, hcd, hmd, List.foldlM_nil,
      Bind.bind, Except.bind, pure, Except.pure, throw, throwThe, MonadExceptOf.throw]

/-- C2 (witness). -/
theorem C2_unsupported_witness :
    (convert3to2 [Top3.agent "u:ag"] =
      Except.error (ConvErr.notImplemented
        "Conversion of Agent from SBOL3 to SBOL2 not yet implemented")) ∧
    (SBOL3To2.visit_component
        { identity := "u:c", nspace := "u:n",
          features := [Feature3.otherFeature "u:f"] } =
      Except.error (ConvErr.notImplemented
        "Conversion of Component features from SBOL3 to SBOL2 not yet implemented")) ∧
    (convert2to3 { moduleDefinitions := ["u:md"] } none =
      Except.error (ConvErr.notImplemented
        "Conversion of ModuleDefinition from SBOL2 to SBOL3 not yet implemented")) :=
  ⟨(C2_unsupported_amended "u:ag" "u:f"
      { identity := "u:c", nspace := "u:n",
        features := [Feature3.otherFeature "u:f"] } { moduleDefinitions := ["u:md"] }).1,
   (C2_unsupported_amended "u:ag" "u:f"
      { identity := "u:c", nspace := "u:n",
        features := [Feature3.otherFeature "u:f"] }
      { moduleDefinitions := ["u:md"] }).2.2.1 (by decide),
   (C2_unsupported_amended "u:ag" "u:f"
      { identity := "u:c", nspace := "u:n",
        features := [Feature3.otherFeature "u:f"] }
      { moduleDefinitions := ["u:md"] }).2.2.2.2 (by decide) (by decide)⟩


/-! ## C6: extension properties -/

theorem goodProps_filter_3to2 (props : List (String × List String))
    (h : goodPropsB props = true) :
    SBOL3To2.convert_extension_properties props = props := by
  unfold SBOL3To2.convert_extension_properties
  rw [List.filter_eq_self]
  intro p hp
  have h2 : (SBOL2_NON_EXTENSION_PROPERTY_PREFIXES.any
      (fun pre => pyStartsWith p.1 pre)) = false := by
    simpa using (List.all_eq_true.mp h) p hp
  simp only [SBOL2_NON_EXTENSION_PROPERTY_PREFIXES, List.any_append,
    Bool.or_eq_false_iff] at h2
  simp [h2.1]

theorem goodProps_filter_2to3 (props : List (String × List String))
    (h : goodPropsB props = true) :
    SBOL2To3.convert_extension_properties props = props := by
  unfold SBOL2To3.convert_extension_properties
  rw [List.filter_eq_self]
  intro p hp
  have h2 : (SBOL2_NON_EXTENSION_PROPERTY_PREFIXES.any
      (fun pre => pyStartsWith p.1 pre)) = false := by
    simpa using (List.all_eq_true.mp h) p hp
  simp [h2]

theorem backport_dropped_2to3 (ns : String) :
    SBOL2To3.convert_extension_properties [(BACKPORT3_NAMESPACE, [ns])] = [] := by
  unfold SBOL2To3.convert_extension_properties
  have : (SBOL2_NON_EXTENSION_PROPERTY_PREFIXES.any
      (fun pre => pyStartsWith BACKPORT3_NAMESPACE pre)) = true := by decide
  simp [List.filter, this]

theorem roundtrip_props (props : List (String × List String)) (ns : String)
    (hgood : goodPropsB props = true) :
    SBOL2To3.convert_extension_properties
        (SBOL3To2.convert_extension_properties props ++ [(BACKPORT3_NAMESPACE, [ns])]) =
      props := by
  rw [goodProps_filter_3to2 props hgood]
  unfold SBOL2To3.convert_extension_properties
  rw [List.filter_append]
  have hb : (SBOL2_NON_EXTENSION_PROPERTY_PREFIXES.any
      (fun pre => pyStartsWith BACKPORT3_NAMESPACE pre)) = true := by decide
  have hfix := goodProps_filter_2to3 props hgood
  unfold SBOL2To3.convert_extension_properties at hfix
  rw [hfix]
  simp [List.filter, hb]

/-- C6 (counterexample): an extension property under the legacy-core dcterms
description prefix is NOT reproduced by a round trip — the current→legacy
filter classifies it as an extension property and copies it, but the
legacy→current filter excludes the dcterms prefixes, so the property is
folded into the core description instead of coming back: the round-tripped
object has no extension properties although the original had one. -/
theorem C6_extension_counterexample :
    (convert3to2 [Top3.collection
        { identity := "u:coll", nspace := "u:n",
          meta := { props := [(DCTERMS_DESCRIPTION, ["foo"])] } }] >>=
      fun d2 => convert2to3 d2 none).map (List.map topProps) = Except.ok [[]] ∧
    [Top3.collection
        { identity := "u:coll", nspace := "u:n",
          meta := { props := [(DCTERMS_DESCRIPTION, ["foo"])] } }].map topProps =
      [[(DCTERMS_DESCRIPTION, ["foo"])]] ∧
    ([[]] : List (List (String × List String))) ≠ [[(DCTERMS_DESCRIPTION, ["foo"])]] := by
  refine ⟨by decide, by decide, by decide⟩

/-- C6 (amended): for every object whose extension-property URIs avoid the
whole legacy-core prefix set (the shared ontologies, the bookkeeping prefix,
and additionally the legacy dcterms title/description prefixes), the filter
composition of a full round trip reproduces the extension properties exactly,
value for value, multi-valued properties included; and a property under the
bookkeeping prefix is never classified as an extension property by either
filter. -/
theorem C6_extension_amended (props : List (String × List String))
    (ns k : String) (vs : List String)
    (hgood : goodPropsB props = true)
    (hk : pyStartsWith k BACKPORT_NAMESPACE = true) :
    SBOL2To3.convert_extension_properties
        (SBOL3To2.convert_extension_properties props ++ [(BACKPORT3_NAMESPACE, [ns])]) =
      props ∧
    SBOL3To2.convert_extension_properties ((k, vs) :: props) =
      SBOL3To2.convert_extension_properties props ∧
    SBOL2To3.convert_extension_properties ((k, vs) :: props) =
      SBOL2To3.convert_extension_properties props := by
  have hmem1 : BACKPORT_NAMESPACE ∈ NON_EXTENSION_PROPERTY_PREFIXES := by decide
  have hmem2 : BACKPORT_NAMESPACE ∈ SBOL2_NON_EXTENSION_PROPERTY_PREFIXES := by decide
  refine ⟨roundtrip_props props ns hgood, ?_, ?_⟩
  · unfold SBOL3To2.convert_extension_properties
    have hany : (NON_EXTENSION_PROPERTY_PREFIXES.any
        (fun pre => pyStartsWith k pre)) = true :=
      List.any_eq_true.mpr ⟨BACKPORT_NAMESPACE, hmem1, hk⟩
    simp [List.filter, hany]
  · unfold SBOL2To3.convert_extension_properties
    have hany : (SBOL2_NON_EXTENSION_PROPERTY_PREFIXES.any
        (fun pre => pyStartsWith k pre)) = true :=
      List.any_eq_true.mpr ⟨BACKPORT_NAMESPACE, hmem2, hk⟩
    simp [List.filter, hany]

/-- C6 (witness): a multi-valued custom extension property survives the filter
round trip; backport bookkeeping properties are dropped by both filters. -/
theorem C6_extension_witness :
    SBOL2To3.convert_extension_properties
        (SBOL3To2.convert_extension_properties [("u:p", ["v1", "v2"])] ++
          [(BACKPORT3_NAMESPACE, ["u:n"])]) = [("u:p", ["v1", "v2"])] ∧
    SBOL3To2.convert_extension_properties
        ((BACKPORT2_VERSION, ["1"]) :: [("u:p", ["v1", "v2"])]) =
      SBOL3To2.convert_extension_properties [("u:p", ["v1", "v2"])] ∧
    SBOL2To3.convert_extension_properties
        ((BACKPORT2_VERSION, ["1"]) :: [("u:p", ["v1", "v2"])]) =
      SBOL2To3.convert_extension_properties [("u:p", ["v1", "v2"])] :=
  C6_extension_amended [("u:p", ["v1", "v2"])] "u:n" BACKPORT2_VERSION ["1"]
    (by decide) (by decide)


/-! ## C10: `convert2to3` with the default `namespaces=None` -/

theorem sbol3_namespace_absent_err (props : List (String × List String))
    (identity : String) (h : props.lookup BACKPORT3_NAMESPACE = none) :
    SBOL2To3.sbol3_namespace none props identity =
      Except.error ConvErr.typeErrorNoneNotIterable := by
  simp [SBOL2To3.sbol3_namespace, h, throw, throwThe, MonadExceptOf.throw]

theorem backport_shape (props : List (String × List String))
    (hs : backportSingleB props = true) (hp : backportPresentB props = true) :
    ∃ v, props.lookup BACKPORT3_NAMESPACE = some [v] := by
  unfold backportSingleB at hs
  unfold backportPresentB at hp
  cases hl : props.lookup BACKPORT3_NAMESPACE with
  | none =>
    rw [hl] at hp
    simp at hp
  | some vals =>
    rw [hl] at hs
    rcases vals with _ | ⟨v, _ | ⟨v2, t⟩⟩
    · simp at hs
    · exact ⟨v, rfl⟩
    · simp at hs

theorem backport_absent (props : List (String × List String))
    (hp : backportPresentB props = false) :
    props.lookup BACKPORT3_NAMESPACE = none := by
  unfold backportPresentB at hp
  cases hl : props.lookup BACKPORT3_NAMESPACE with
  | none => rfl
  | some vals =>
    rw [hl] at hp
    simp at hp

/-! Per-bucket step lemmas: with `namespaces = None`, each supported-kind step
succeeds when the object carries a single-valued backport namespace property
(and no raising substructure), and raises `TypeError` when the property is
absent. -/

theorem step_cd_ok (cd : ComponentDefinition2) (d : List Top3)
    (hv : ∃ v, cd.meta.props.lookup BACKPORT3_NAMESPACE = some [v])
    (ha : cd.sequenceAnnotations = []) (hc : cd.sequenceConstraints = []) :
    ∃ d1, SBOL2To3.step_component_definition none d cd = Except.ok d1 := by
  obtain ⟨v, hv⟩ := hv
  simp only [SBOL2To3.step_component_definition, SBOL2To3.visit_component_definition,
    sbol3_namespace_single_ok none _ _ v hv, ha, hc, Bind.bind, Except.bind,
    pure, Except.pure]
  exact ⟨_, rfl⟩

theorem step_cd_err (cd : ComponentDefinition2) (d : List Top3)
    (h : cd.meta.props.lookup BACKPORT3_NAMESPACE = none) :
    SBOL2To3.step_component_definition none d cd =
      Except.error ConvErr.typeErrorNoneNotIterable := by
  simp [SBOL2To3.step_component_definition, SBOL2To3.visit_component_definition,
    sbol3_namespace_absent_err _ _ h, Bind.bind, Except.bind]

theorem step_seq_ok (s2 : Sequence2) (d : List Top3)
    (hv : ∃ v, s2.meta.props.lookup BACKPORT3_NAMESPACE = some [v]) :
    ∃ d1, SBOL2To3.step_sequence none d s2 = Except.ok d1 := by
  obtain ⟨v, hv⟩ := hv
  simp only [SBOL2To3.step_sequence, SBOL2To3.visit_sequence,
    sbol3_namespace_single_ok none _ _ v hv, Bind.bind, Except.bind,
    pure, Except.pure]
  exact ⟨_, rfl⟩

theorem step_seq_err (s2 : Sequence2) (d : List Top3)
    (h : s2.meta.props.lookup BACKPORT3_NAMESPACE = none) :
    SBOL2To3.step_sequence none d s2 =
      Except.error ConvErr.typeErrorNoneNotIterable := by
  simp [SBOL2To3.step_sequence, SBOL2To3.visit_sequence,
    sbol3_namespace_absent_err _ _ h, Bind.bind, Except.bind]

theorem step_coll_total (c2 : Collection2) (d : List Top3) :
    SBOL2To3.step_collection d c2 =
      Except.ok (d ++ [Top3.collection (SBOL2To3.visit_collection c2)]) := rfl

theorem step_act_ok (a2 : Activity2) (d : List Top3)
    (hv : ∃ v, a2.meta.props.lookup BACKPORT3_NAMESPACE = some [v])
    (hu : a2.usages = []) (hassoc : a2.associations = []) :
    ∃ d1, SBOL2To3.step_activity none d a2 = Except.ok d1 := by
  obtain ⟨v, hv⟩ := hv
  simp only [SBOL2To3.step_activity, SBOL2To3.visit_activity,
    sbol3_namespace_single_ok none _ _ v hv, hu, hassoc, Bind.bind, Except.bind,
    pure, Except.pure]
  exact ⟨_, rfl⟩

theorem step_act_err (a2 : Activity2) (d : List Top3)
    (h : a2.meta.props.lookup BACKPORT3_NAMESPACE = none) :
    SBOL2To3.step_activity none d a2 =
      Except.error ConvErr.typeErrorNoneNotIterable := by
  simp [SBOL2To3.step_activity, SBOL2To3.visit_activity,
    sbol3_namespace_absent_err _ _ h, Bind.bind, Except.bind]

theorem step_imp_ok (i2 : Implementation2) (d : List Top3)
    (hv : ∃ v, i2.meta.props.lookup BACKPORT3_NAMESPACE = some [v]) :
    ∃ d1, SBOL2To3.step_implementation none d i2 = Except.ok d1 := by
  obtain ⟨v, hv⟩ := hv
  simp only [SBOL2To3.step_implementation, SBOL2To3.visit_implementation,
    sbol3_namespace_single_ok none _ _ v hv, Bind.bind, Except.bind,
    pure, Except.pure]
  exact ⟨_, rfl⟩

theorem step_imp_err (i2 : Implementation2) (d : List Top3)
    (h : i2.meta.props.lookup BACKPORT3_NAMESPACE = none) :
    SBOL2To3.step_implementation none d i2 =
      Except.error ConvErr.typeErrorNoneNotIterable := by
  simp [SBOL2To3.step_implementation, SBOL2To3.visit_implementation,
    sbol3_namespace_absent_err _ _ h, Bind.bind, Except.bind]

/-! Generic bucket-fold lemmas. -/

theorem fold_bucket_ok {α : Type} (step : List Top3 → α → Except ConvErr (List Top3))
    (P : α → Prop) (pr : α → Bool)
    (hok : ∀ d o, P o → pr o = true → ∃ d1, step d o = Except.ok d1) :
    ∀ (l : List α) (d0 : List Top3), (∀ o ∈ l, P o) → l.all pr = true →
      ∃ d1, l.foldlM step d0 = Except.ok d1 := by
  intro l
  induction l with
  | nil =>
    intro d0 _ _
    exact ⟨d0, by simp [List.foldlM_nil, pure, Except.pure]⟩
  | cons o l ih =>
    intro d0 hP hall
    simp only [List.all_cons, Bool.and_eq_true] at hall
    obtain ⟨d1, hd1⟩ := hok d0 o (hP o (List.mem_cons_self o l)) hall.1
    obtain ⟨d2, hd2⟩ := ih d1 (fun x hx => hP x (List.mem_cons_of_mem o hx)) hall.2
    refine ⟨d2, ?_⟩
    rw [List.foldlM_cons]
    simp [hd1, Bind.bind, Except.bind, hd2]

theorem fold_bucket_err {α : Type} (step : List Top3 → α → Except ConvErr (List Top3))
    (P : α → Prop) (pr : α → Bool)
    (hok : ∀ d o, P o → pr o = true → ∃ d1, step d o = Except.ok d1)
    (herr : ∀ d o, P o → pr o = false → step d o = Except.error ConvErr.typeErrorNoneNotIterable) :
    ∀ (l : List α) (d0 : List Top3), (∀ o ∈ l, P o) → l.all pr = false →
      l.foldlM step d0 = Except.error ConvErr.typeErrorNoneNotIterable := by
  intro l
  induction l with
  | nil =>
    intro d0 _ hall
    simp at hall
  | cons o l ih =>
    intro d0 hP hall
    simp only [List.all_cons, Bool.and_eq_false_iff] at hall
    rw [List.foldlM_cons]
    cases hpr : pr o with
    | false =>
      simp [herr d0 o (hP o (List.mem_cons_self o l)) hpr, Bind.bind, Except.bind]
    | true =>
      obtain ⟨d1, hd1⟩ := hok d0 o (hP o (List.mem_cons_self o l)) hpr
      have hrest : l.all pr = false := by
        rcases hall with h1 | h2
        · rw [hpr] at h1
          simp at h1
        · exact h2
      simp [hd1, Bind.bind, Except.bind,
        ih d1 (fun x hx => hP x (List.mem_cons_of_mem o hx)) hrest]


/-- C10 (counterexample): the TypeError is NOT raised for every legacy
document containing a supported top-level object without the bookkeeping
namespace property — a document that also contains an unsupported object
reached earlier in the fixed bucket order (here a ModuleDefinition, visited
before sequences) fails with `NotImplementedError` instead, and a document
whose only property-lacking object is a Collection converts and returns
normally, since `visit_collection` never consults the namespace list. -/
theorem C10_none_namespaces_counterexample :
    convert2to3 { moduleDefinitions := ["u:md"],
                  sequences := [{ identity := "u:s" }] } none =
      Except.error (ConvErr.notImplemented
        "Conversion of ModuleDefinition from SBOL2 to SBOL3 not yet implemented") ∧
    ({ identity := "u:s" } : Sequence2).meta.props.lookup BACKPORT3_NAMESPACE = none ∧
    convert2to3 { moduleDefinitions := ["u:md"],
                  sequences := [{ identity := "u:s" }] } none ≠
      Except.error ConvErr.typeErrorNoneNotIterable ∧
    ({ identity := "u:k/c" } : Collection2).meta.props.lookup BACKPORT3_NAMESPACE = none ∧
    convert2to3 { collections := [{ identity := "u:k/c" }] } none =
      Except.ok [Top3.collection { identity := "u:k/c", nspace := "u:k",
                                   meta := { sbol2_version := some "1" } }] := by
  refine ⟨by decide, by decide, by decide, by decide, by decide⟩

theorem all_map_general {α β : Type} (f : α → β) (p : β → Bool) (l : List α) :
    (l.map f).all p = l.all (fun x => p (f x)) := by
  induction l with
  | nil => rfl
  | cons x xs ih => simp [List.all_cons, ih]

/-- C10 (amended): calling `convert2to3` without a namespaces list (the `None`
default) substitutes no empty candidate list: for every legacy document all of
whose objects are of supported, convertible kinds (no unsupported bucket is
non-empty, no sequence annotations/constraints, no activity
usages/associations, every present bookkeeping property of a
namespace-resolving object single-valued), if at least one namespace-resolving
object (component definition, sequence, activity or implementation) lacks the
bookkeeping namespace property the conversion raises an uncaught `TypeError`,
because the candidate-prefix scan iterates over `None`; if every
namespace-resolving object carries the property, the conversion returns
normally even when collections lack it, because `visit_collection` never
consults the namespace list. -/
theorem C10_none_namespaces_amended (doc2 : Doc2)
    (hsup : doc2SupportedOnlyB doc2 = true)
    (hconv : doc2ConvertibleB doc2 = true)
    (hsingle : (doc2ResolverProps doc2).all backportSingleB = true) :
    ((doc2ResolverProps doc2).all backportPresentB = false →
      convert2to3 doc2 none = Except.error ConvErr.typeErrorNoneNotIterable) ∧
    ((doc2ResolverProps doc2).all backportPresentB = true →
      ∃ d3, convert2to3 doc2 none = Except.ok d3) := by
  simp only [doc2SupportedOnlyB, Bool.and_eq_true, List.isEmpty_iff] at hsup
  obtain ⟨⟨⟨⟨⟨⟨⟨hmd, hmo⟩, hpl⟩, hag⟩, hat⟩, hcb⟩, hex⟩, hed⟩ := hsup
  simp only [doc2ConvertibleB, Bool.and_eq_true] at hconv
  obtain ⟨hcds, hacts⟩ := hconv
  have hcdsP : ∀ cd ∈ doc2.componentDefinitions,
      cd.sequenceAnnotations = [] ∧ cd.sequenceConstraints = [] := by
    intro cd hcd
    have h := List.all_eq_true.mp hcds cd hcd
    simp only [Bool.and_eq_true, List.isEmpty_iff] at h
    exact h
  have hactsP : ∀ a ∈ doc2.activities, a.usages = [] ∧ a.associations = [] := by
    intro a ha
    have h := List.all_eq_true.mp hacts a ha
    simp only [Bool.and_eq_true, List.isEmpty_iff] at h
    exact h
  simp only [doc2ResolverProps, List.all_append, all_map_general, Bool.and_eq_true] at hsingle
  obtain ⟨⟨⟨hs1, hs2⟩, hs4⟩, hs5⟩ := hsingle
  -- instantiated step facts
  have hokCD : ∀ (d : List Top3) (cd : ComponentDefinition2),
      (backportSingleB cd.meta.props = true ∧ cd.sequenceAnnotations = [] ∧
        cd.sequenceConstraints = []) →
      backportPresentB cd.meta.props = true →
      ∃ d1, SBOL2To3.step_component_definition none d cd = Except.ok d1 :=
    fun d cd hP hpr => step_cd_ok cd d (backport_shape _ hP.1 hpr) hP.2.1 hP.2.2
  have herrCD : ∀ (d : List Top3) (cd : ComponentDefinition2),
      (backportSingleB cd.meta.props = true ∧ cd.sequenceAnnotations = [] ∧
        cd.sequenceConstraints = []) →
      backportPresentB cd.meta.props = false →
      SBOL2To3.step_component_definition none d cd =
        Except.error ConvErr.typeErrorNoneNotIterable :=
    fun d cd _ hpr => step_cd_err cd d (backport_absent _ hpr)
  have hPcd : ∀ cd ∈ doc2.componentDefinitions,
      (backportSingleB cd.meta.props = true ∧ cd.sequenceAnnotations = [] ∧
        cd.sequenceConstraints = []) := by
    intro cd hcd
    exact ⟨List.all_eq_true.mp hs1 cd hcd, (hcdsP cd hcd).1, (hcdsP cd hcd).2⟩
  have hokSeq : ∀ (d : List Top3) (s : Sequence2),
      backportSingleB s.meta.props = true → backportPresentB s.meta.props = true →
      ∃ d1, SBOL2To3.step_sequence none d s = Except.ok d1 :=
    fun d s hP hpr => step_seq_ok s d (backport_shape _ hP hpr)
  have herrSeq : ∀ (d : List Top3) (s : Sequence2),
      backportSingleB s.meta.props = true → backportPresentB s.meta.props = false →
      SBOL2To3.step_sequence none d s = Except.error ConvErr.typeErrorNoneNotIterable :=
    fun d s _ hpr => step_seq_err s d (backport_absent _ hpr)
  have hokAct : ∀ (d : List Top3) (a : Activity2),
      (backportSingleB a.meta.props = true ∧ a.usages = [] ∧ a.associations = []) →
      backportPresentB a.meta.props = true →
      ∃ d1, SBOL2To3.step_activity none d a = Except.ok d1 :=
    fun d a hP hpr => step_act_ok a d (backport_shape _ hP.1 hpr) hP.2.1 hP.2.2
  have herrAct : ∀ (d : List Top3) (a : Activity2),
      (backportSingleB a.meta.props = true ∧ a.usages = [] ∧ a.associations = []) →
      backportPresentB a.meta.props = false →
      SBOL2To3.step_activity none d a = Except.error ConvErr.typeErrorNoneNotIterable :=
    fun d a _ hpr => step_act_err a d (backport_absent _ hpr)
  have hPact : ∀ a ∈ doc2.activities,
      (backportSingleB a.meta.props = true ∧ a.usages = [] ∧ a.associations = []) := by
    intro a ha
    exact ⟨List.all_eq_true.mp hs4 a ha, (hactsP a ha).1, (hactsP a ha).2⟩
  have hokImp : ∀ (d : List Top3) (i : Implementation2),
      backportSingleB i.meta.props = true → backportPresentB i.meta.props = true →
      ∃ d1, SBOL2To3.step_implementation none d i = Except.ok d1 :=
    fun d i hP hpr => step_imp_ok i d (backport_shape _ hP hpr)
  have herrImp : ∀ (d : List Top3) (i : Implementation2),
      backportSingleB i.meta.props = true → backportPresentB i.meta.props = false →
      SBOL2To3.step_implementation none d i = Except.error ConvErr.typeErrorNoneNotIterable :=
    fun d i _ hpr => step_imp_err i d (backport_absent _ hpr)
  have hcollfold : ∀ d0 : List Top3,
      ∃ d1, doc2.collections.foldlM SBOL2To3.step_collection d0 = Except.ok d1 := by
    intro d0
    refine fold_bucket_ok SBOL2To3.step_collection (fun _ => True) (fun _ => true)
      (fun d o _ _ => ⟨_, step_coll_total o d⟩) doc2.collections d0
      (fun _ _ => trivial) ?_
    simp
  constructor
  · intro hlack
    simp only [doc2ResolverProps, List.all_append, all_map_general] at hlack
    unfold convert2to3 SBOL2To3.visit_document
    cases hA : doc2.componentDefinitions.all (fun cd => backportPresentB cd.meta.props) with
    | false =>
      have herr := fold_bucket_err (SBOL2To3.step_component_definition none) _ _
        hokCD herrCD doc2.componentDefinitions [] hPcd hA
      simp [herr, Bind.bind, Except.bind]
    | true =>
      obtain ⟨d1, hd1⟩ := fold_bucket_ok (SBOL2To3.step_component_definition none) _ _
        hokCD doc2.componentDefinitions [] hPcd hA
      rw [hA] at hlack
      simp only [Bool.true_and] at hlack
      cases hB : doc2.sequences.all (fun s => backportPresentB s.meta.props) with
      | false =>
        have herr := fold_bucket_err (SBOL2To3.step_sequence none) _ _
          (fun d s hP hpr => hokSeq d s hP hpr) (fun d s hP hpr => herrSeq d s hP hpr)
          doc2.sequences d1 (fun s hs => List.all_eq_true.mp hs2 s hs) hB
        simp [hd1, hmd, hmo, herr, Bind.bind, Except.bind, pure, Except.pure]
      | true =>
        obtain ⟨d2, hd2⟩ := fold_bucket_ok (SBOL2To3.step_sequence none) _ _
          (fun d s hP hpr => hokSeq d s hP hpr) doc2.sequences d1
          (fun s hs => List.all_eq_true.mp hs2 s hs) hB
        rw [hB] at hlack
        simp only [Bool.true_and] at hlack
        obtain ⟨d3, hd3⟩ := hcollfold d2
        cases hD : doc2.activities.all (fun a => backportPresentB a.meta.props) with
        | false =>
          have herr := fold_bucket_err (SBOL2To3.step_activity none) _ _
            hokAct herrAct doc2.activities d3 hPact hD
          simp [hd1, hd2, hd3, hmd, hmo, herr, Bind.bind, Except.bind, pure, Except.pure]
        | true =>
          obtain ⟨d4, hd4⟩ := fold_bucket_ok (SBOL2To3.step_activity none) _ _
            hokAct doc2.activities d3 hPact hD
          rw [hD] at hlack
          simp only [Bool.true_and] at hlack
          cases hE : doc2.implementations.all (fun i => backportPresentB i.meta.props) with
          | false =>
            have herr := fold_bucket_err (SBOL2To3.step_implementation none) _ _
              (fun d i hP hpr => hokImp d i hP hpr) (fun d i hP hpr => herrImp d i hP hpr)
              doc2.implementations d4 (fun i hi => List.all_eq_true.mp hs5 i hi) hE
            simp [hd1, hd2, hd3, hd4, hmd, hmo, hpl, hag, hat, hcb, herr,
              Bind.bind, Except.bind, pure, Except.pure]
          | true =>
            rw [hE] at hlack
            simp at hlack
  · intro hall
    simp only [doc2ResolverProps, List.all_append, all_map_general,
      Bool.and_eq_true] at hall
    obtain ⟨⟨⟨hA, hB⟩, hD⟩, hE⟩ := hall
    obtain ⟨d1, hd1⟩ := fold_bucket_ok (SBOL2To3.step_component_definition none) _ _
      hokCD doc2.componentDefinitions [] hPcd hA
    obtain ⟨d2, hd2⟩ := fold_bucket_ok (SBOL2To3.step_sequence none) _ _
      (fun d s hP hpr => hokSeq d s hP hpr) doc2.sequences d1
      (fun s hs => List.all_eq_true.mp hs2 s hs) hB
    obtain ⟨d3, hd3⟩ := hcollfold d2
    obtain ⟨d4, hd4⟩ := fold_bucket_ok (SBOL2To3.step_activity none) _ _
      hokAct doc2.activities d3 hPact hD
    obtain ⟨d5, hd5⟩ := fold_bucket_ok (SBOL2To3.step_implementation none) _ _
      (fun d i hP hpr => hokImp d i hP hpr) doc2.implementations d4
      (fun i hi => List.all_eq_true.mp hs5 i hi) hE
    refine ⟨d5, ?_⟩
    unfold convert2to3 SBOL2To3.visit_document
    simp [hd1, hd2, hd3, hd4, hd5, hmd, hmo, hpl, hag, hat, hcb, hex, hed,
      Bind.bind, Except.bind, pure, Except.pure]

/-- C10 (witness): a one-sequence document without the bookkeeping property
raises the TypeError; a one-collection document without it converts
normally. -/
theorem C10_none_namespaces_witness :
    doc2SupportedOnlyB { sequences := [{ identity := "u:s" }] } = true ∧
    convert2to3 { sequences := [{ identity := "u:s" }] } none =
      Except.error ConvErr.typeErrorNoneNotIterable ∧
    ({ identity := "u:c" } : Collection2).meta.props.lookup BACKPORT3_NAMESPACE = none ∧
    (∃ d3, convert2to3 { collections := [{ identity := "u:c" }] } none =
      Except.ok d3) :=
  ⟨by decide,
   (C10_none_namespaces_amended { sequences := [{ identity := "u:s" }] }
     (by decide) (by decide) (by decide)).1 (by decide),
   by decide,
   (C10_none_namespaces_amended { collections := [{ identity := "u:c" }] }
     (by decide) (by decide) (by decide)).2 (by decide)⟩


/-! ## C1: round-trip machinery -/

theorem map_id_of_forall {α : Type} (f : α → α) (l : List α)
    (h : ∀ x ∈ l, f x = x) : l.map f = l := by
  induction l with
  | nil => rfl
  | cons x xs ih =>
    rw [List.map_cons, h x (List.mem_cons_self x xs),
      ih (fun y hy => h y (List.mem_cons_of_mem x hy))]

theorem lookup_append_skip (l1 l2 : List (String × List String)) (k : String)
    (h : ∀ p ∈ l1, p.1 ≠ k) :
    List.lookup k (l1 ++ l2) = List.lookup k l2 := by
  induction l1 with
  | nil => rfl
  | cons p l1 ih =>
    have hp : p.1 ≠ k := h p (List.mem_cons_self p l1)
    rw [List.cons_append]
    have hrest := ih (fun q hq => h q (List.mem_cons_of_mem p hq))
    cases p with
    | mk k0 v0 =>
      rw [List.lookup_cons]
      have hne : (k == k0) = false := by
        simp only [beq_eq_false_iff_ne, ne_eq]
        exact fun he => hp he.symm
      simp only [hne]
      exact hrest

theorem good_lookup_none (props : List (String × List String)) (k : String)
    (hgood : goodPropsB props = true)
    (hk : k ∈ SBOL2_NON_EXTENSION_PROPERTY_PREFIXES) (hself : pyStartsWith k k = true) :
    props.lookup k = none := by
  induction props with
  | nil => rfl
  | cons p props ih =>
    have hgood2 : goodPropsB props = true := by
      simp only [goodPropsB, List.all_cons, Bool.and_eq_true] at hgood
      exact hgood.2
    cases p with
    | mk k0 v0 =>
      rw [List.lookup_cons]
      have hne : (k == k0) = false := by
        simp only [beq_eq_false_iff_ne, ne_eq]
        intro he
        subst he
        simp only [goodPropsB, List.all_cons, Bool.and_eq_true] at hgood
        have := hgood.1
        simp only [Bool.not_eq_true'] at this
        have h2 := List.any_eq_false.mp this k hk
        simp [hself] at h2
      simp only [hne]
      exact ih hgood2

theorem pyStartsWith_self (k : String) : pyStartsWith k k = true := by
  unfold pyStartsWith
  exact List.isPrefixOf_iff_prefix.mpr (List.prefix_refl _)

theorem vop_good (props : List (String × List String)) (v : Option String) (k : String)
    (hgood : goodPropsB props = true)
    (hk : k ∈ SBOL2_NON_EXTENSION_PROPERTY_PREFIXES) :
    SBOL3To2.value_or_property props v k = v := by
  unfold SBOL3To2.value_or_property
  rw [good_lookup_none props k hgood hk (pyStartsWith_self k)]

theorem filter1_no_backport (props : List (String × List String)) :
    ∀ p ∈ SBOL3To2.convert_extension_properties props, p.1 ≠ BACKPORT3_NAMESPACE := by
  intro p hp he
  have hmem := List.of_mem_filter hp
  simp only [Bool.not_eq_true'] at hmem
  have h2 := List.any_eq_false.mp hmem BACKPORT_NAMESPACE (by decide)
  rw [he] at h2
  simp only [Bool.not_eq_true] at h2
  exact absurd h2 (by decide)

theorem lookup_fwd_backport (m : Ident3) (ns : String) :
    (fwdToplevel ns m).props.lookup BACKPORT3_NAMESPACE = some [ns] := by
  have h1 : (fwdToplevel ns m).props =
      SBOL3To2.convert_extension_properties m.props ++ [(BACKPORT3_NAMESPACE, [ns])] := rfl
  rw [h1, lookup_append_skip _ _ _ (filter1_no_backport m.props)]
  simp [List.lookup]

theorem sbol2_version_ne_empty (m : Ident3) : SBOL3To2.sbol2_version m ≠ "" := by
  unfold SBOL3To2.sbol2_version pyOrStr
  split
  · rename_i h
    cases hm : m.sbol2_version with
    | none => rw [hm] at h; simp [pyTruthyOpt] at h
    | some s =>
      rw [hm] at h
      simp only [pyTruthyOpt, ne_eq] at h
      simp only [hm, Option.getD_some]
      simpa using h
  · decide

/-- The shared-field (Identified/TopLevel) round trip: reverse-converting the
forward image of good shared fields restores them, adding only the version
bookkeeping property. -/
theorem rev_toplevel_meta (version ns : String) (m : Ident3)
    (h : goodIdent3B m = true) :
    SBOL2To3.convert_toplevel version (fwdToplevel ns m) =
      { m with sbol2_version := if version ≠ "" then some version else none } := by
  simp only [goodIdent3B, Bool.and_eq_true, List.isEmpty_iff] at h
  obtain ⟨hme, hgood⟩ := h
  cases m with
  | mk nm ds df gb att ms v0 pr =>
    dsimp only at hme hgood ⊢
    subst hme
    unfold SBOL2To3.convert_toplevel SBOL2To3.convert_identified fwdToplevel fwdIdentified
    dsimp only
    rw [vop_good pr nm DCTERMS_TITLE hgood (by decide),
      vop_good pr ds DCTERMS_DESCRIPTION hgood (by decide),
      roundtrip_props pr ns hgood]


theorem type_lookup_back (t v : String) (hl : type_map_3to2.lookup t = some v) :
    pyGetSelf type_map_2to3 v = t := by
  simp only [type_map_3to2, List.lookup] at hl
  repeat' split at hl
  all_goals
    first
    | (simp only [Option.some.injEq] at hl
       subst hl
       rename_i heq
       have ht := eq_of_beq heq
       subst ht
       decide)
    | simp at hl

theorem encoding_lookup_back (t v : String) (hl : encoding_map_3to2.lookup t = some v) :
    pyGetSelf encoding_map_2to3 v = t := by
  simp only [encoding_map_3to2, List.lookup] at hl
  repeat' split at hl
  all_goals
    first
    | (simp only [Option.some.injEq] at hl
       subst hl
       rename_i heq
       have ht := eq_of_beq heq
       subst ht
       decide)
    | simp at hl

theorem type_rt (t : String) (h : goodTypeB t = true) :
    pyGetSelf type_map_2to3 (pyGetSelf type_map_3to2 t) = t := by
  unfold goodTypeB at h
  cases hl : type_map_3to2.lookup t with
  | some v =>
    have h1 : pyGetSelf type_map_3to2 t = v := by simp [pyGetSelf, hl]
    rw [h1]
    exact type_lookup_back t v hl
  | none =>
    rw [hl] at h
    simp only [Option.isSome_none, Bool.false_or] at h
    have h2 : type_map_2to3.lookup t = none := by
      cases hx : type_map_2to3.lookup t with
      | none => rfl
      | some w => rw [hx] at h; simp at h
    simp [pyGetSelf, hl, h2]

theorem encoding_rt (e : Option String) (h : goodEncodingB e = true) :
    pyGetSelfOpt encoding_map_2to3 (pyGetSelfOpt encoding_map_3to2 e) = e := by
  cases e with
  | none => rfl
  | some t =>
    simp only [goodEncodingB] at h
    cases hl : encoding_map_3to2.lookup t with
    | some v =>
      have h1 : pyGetSelf encoding_map_3to2 t = v := by simp [pyGetSelf, hl]
      simp only [pyGetSelfOpt, h1, Option.some.injEq]
      exact encoding_lookup_back t v hl
    | none =>
      rw [hl] at h
      simp only [Option.isSome_none, Bool.false_or] at h
      have h2 : encoding_map_2to3.lookup t = none := by
        cases hx : encoding_map_2to3.lookup t with
        | none => rfl
        | some w => rw [hx] at h; simp at h
      simp [pyGetSelfOpt, pyGetSelf, hl, h2]


theorem rev_coll_step (d : List Top3) (c : Collection3)
    (h : goodTop3B (Top3.collection c) = true) :
    SBOL2To3.step_collection d (fwdCollection c) =
      Except.ok (d ++ [rtTop (Top3.collection c)]) := by
  simp only [goodTop3B, Bool.and_eq_true, beq_iff_eq] at h
  obtain ⟨hns, hgood⟩ := h
  simp only [SBOL2To3.step_collection, SBOL2To3.visit_collection, fwdCollection,
    rev_toplevel_meta "1" c.nspace c.meta hgood, ← hns, rtTop,
    pure, Except.pure]
  simp

theorem rev_seq_step (d : List Top3) (s : Sequence3)
    (h : goodTop3B (Top3.sequence s) = true) :
    SBOL2To3.step_sequence none d (fwdSequence s) =
      Except.ok (d ++ [rtTop (Top3.sequence s)]) := by
  simp only [goodTop3B, Bool.and_eq_true] at h
  obtain ⟨henc, hgood⟩ := h
  have hns : ((fwdSequence s).meta.props).lookup BACKPORT3_NAMESPACE = some [s.nspace] :=
    lookup_fwd_backport s.meta s.nspace
  simp only [SBOL2To3.step_sequence, SBOL2To3.visit_sequence, fwdSequence] at hns ⊢
  rw [sbol3_namespace_single_ok none _ _ s.nspace hns]
  simp only [Bind.bind, Except.bind, pure, Except.pure,
    rev_toplevel_meta (SBOL3To2.sbol2_version s.meta) s.nspace s.meta hgood,
    rtTop, SBOL2To3.resolved_namespace, encoding_rt s.encoding henc]
  simp [sbol2_version_ne_empty s.meta]

theorem rev_imp_step (d : List Top3) (i : Implementation3)
    (h : goodTop3B (Top3.implementation i) = true) :
    SBOL2To3.step_implementation none d (fwdImplementation i) =
      Except.ok (d ++ [rtTop (Top3.implementation i)]) := by
  have hgood : goodIdent3B i.meta = true := by
    simpa [goodTop3B] using h
  have hns : ((fwdImplementation i).meta.props).lookup BACKPORT3_NAMESPACE = some [i.nspace] :=
    lookup_fwd_backport i.meta i.nspace
  simp only [SBOL2To3.step_implementation, SBOL2To3.visit_implementation,
    fwdImplementation] at hns ⊢
  rw [sbol3_namespace_single_ok none _ _ i.nspace hns]
  simp only [Bind.bind, Except.bind, pure, Except.pure,
    rev_toplevel_meta (SBOL3To2.sbol2_version i.meta) i.nspace i.meta hgood,
    rtTop, SBOL2To3.resolved_namespace]
  simp [sbol2_version_ne_empty i.meta]

theorem rev_act_step (d : List Top3) (a : Activity3)
    (h : goodTop3B (Top3.activity a) = true) :
    SBOL2To3.step_activity none d (fwdActivity a) =
      Except.ok (d ++ [rtTop (Top3.activity a)]) := by
  simp only [goodTop3B, Bool.and_eq_true, decide_eq_true_eq, List.isEmpty_iff] at h
  obtain ⟨⟨⟨⟨hlen, hne⟩, hu⟩, hassoc⟩, hgood⟩ := h
  have hns : ((fwdActivity a).meta.props).lookup BACKPORT3_NAMESPACE = some [a.nspace] :=
    lookup_fwd_backport a.meta a.nspace
  simp only [SBOL2To3.step_activity, SBOL2To3.visit_activity, fwdActivity] at hns ⊢
  rw [sbol3_namespace_single_ok none _ _ a.nspace hns]
  have htypes : (if pyTruthyOpt a.types.head? = true
      then [a.types.head?.getD ""] else []) = a.types := by
    rcases ht : a.types with _ | ⟨t, tl⟩
    · simp [pyTruthyOpt]
    · rcases tl with _ | ⟨t2, ts⟩
      · have htne : t ≠ "" := by
          have := List.all_eq_true.mp hne t (by rw [ht]; exact List.mem_cons_self t [])
          simpa using this
        simp [pyTruthyOpt, htne]
      · rw [ht] at hlen
        simp at hlen
  simp only [Bind.bind, Except.bind, pure, Except.pure,
    rev_toplevel_meta (SBOL3To2.sbol2_version a.meta) a.nspace a.meta hgood,
    rtTop, SBOL2To3.resolved_namespace, htypes]
  simp [sbol2_version_ne_empty a.meta, hu, hassoc]


theorem canon_no_other (parent : String) :
    ∀ (n : Nat) (fs : List Feature3), canonFeaturesB parent n fs = true →
      ∀ fid, Feature3.otherFeature fid ∉ fs := by
  intro n fs
  induction fs generalizing n with
  | nil =>
    intro _ fid hmem
    simp at hmem
  | cons f fs ih =>
    intro h fid hmem
    cases f with
    | sub s =>
      simp only [canonFeaturesB, Bool.and_eq_true] at h
      rcases List.mem_cons.mp hmem with h1 | h2
      · exact absurd h1 (by simp)
      · exact ih (n + 1) h.2 fid h2
    | componentReference g => simp [canonFeaturesB] at h
    | otherFeature g => simp [canonFeaturesB] at h

theorem canon_components_rt (parent : String) :
    ∀ (n : Nat) (fs : List Feature3), canonFeaturesB parent (n + 1) fs = true →
      ((fs.filterMap (fun f => match f with
          | Feature3.sub s => some (SBOL3To2.visit_sub_component s)
          | _ => none)).enumFrom n).map
        (fun p => SBOL2To3.visit_component parent (p.1 + 1) p.2) =
      fs.filterMap (fun f => match f with
        | Feature3.sub s => some (s, (s.identity, s.identity))
        | _ => none) := by
  intro n fs
  induction fs generalizing n with
  | nil => intro _; rfl
  | cons f fs ih =>
    intro h
    cases f with
    | sub s =>
      simp only [canonFeaturesB, Bool.and_eq_true, beq_iff_eq, Bool.not_eq_true'] at h
      obtain ⟨⟨hid, hri⟩, hrest⟩ := h
      have hri2 : s.role_integration ≠ some "" := by
        simpa using hri
      have hrole : (if pyTruthyOpt s.role_integration = true
          then s.role_integration else none) = s.role_integration := by
        cases hro : s.role_integration with
        | none => simp [pyTruthyOpt]
        | some r =>
          have hrne : r ≠ "" := by
            rw [hro] at hri2
            intro he
            exact hri2 (by rw [he])
          simp [pyTruthyOpt, hrne]
      simp only [List.filterMap_cons, List.enumFrom_cons, List.map_cons]
      rw [ih (n + 1) hrest]
      congr 1
      simp only [SBOL2To3.visit_component, SBOL3To2.visit_sub_component, ← hid, hrole]
    | componentReference g => simp [canonFeaturesB] at h
    | otherFeature g => simp [canonFeaturesB] at h

theorem canon_pairs (parent : String) :
    ∀ (n : Nat) (fs : List Feature3), canonFeaturesB parent (n + 1) fs = true →
      ((fs.filterMap (fun f => match f with
          | Feature3.sub s => some (s, (s.identity, s.identity))
          | _ => none)).map (fun p => Feature3.sub p.1) = fs ∧
       (∀ m ∈ (fs.filterMap (fun f => match f with
          | Feature3.sub s => some (s, (s.identity, s.identity))
          | _ => none)).map (fun p => p.2), m.1 = m.2)) := by
  intro n fs
  induction fs generalizing n with
  | nil =>
    intro _
    exact ⟨rfl, by intro m hm; simp at hm⟩
  | cons f fs ih =>
    intro h
    cases f with
    | sub s =>
      simp only [canonFeaturesB, Bool.and_eq_true] at h
      obtain ⟨ihm, ihp⟩ := ih (n + 1) h.2
      refine ⟨?_, ?_⟩
      · simp only [List.filterMap_cons, List.map_cons, ihm]
      · intro m hm
        simp only [List.filterMap_cons, List.map_cons, List.mem_cons] at hm
        rcases hm with h1 | h2
        · rw [h1]
        · exact ihp m h2
    | componentReference g => simp [canonFeaturesB] at h
    | otherFeature g => simp [canonFeaturesB] at h


theorem rev_cd_step (d : List Top3) (c : Component3)
    (h : goodTop3B (Top3.component c) = true) :
    SBOL2To3.step_component_definition none d (fwdComponent c) =
      Except.ok (d ++ [rtTop (Top3.component c)]) := by
  simp only [goodTop3B, Bool.and_eq_true, List.isEmpty_iff,
    Option.isNone_iff_eq_none] at h
  obtain ⟨⟨⟨⟨⟨⟨htypes, hcanon⟩, hint⟩, hcon⟩, hif⟩, hmod⟩, hgood⟩ := h
  have hns : ((fwdComponent c).meta.props).lookup BACKPORT3_NAMESPACE = some [c.nspace] :=
    lookup_fwd_backport c.meta c.nspace
  have htypes_rt : (c.types.map (pyGetSelf type_map_3to2)).map (pyGetSelf type_map_2to3) =
      c.types := by
    rw [List.map_map]
    apply map_id_of_forall
    intro t ht
    exact type_rt t (List.all_eq_true.mp htypes t ht)
  have hpairs := canon_components_rt c.identity 0 c.features hcanon
  have hproj := canon_pairs c.identity 0 c.features hcanon
  simp only [SBOL2To3.step_component_definition, SBOL2To3.visit_component_definition,
    fwdComponent] at hns ⊢
  rw [sbol3_namespace_single_ok none _ _ c.nspace hns]
  simp only [List.enum, hpairs, htypes_rt, hproj.1,
    rev_toplevel_meta (SBOL3To2.sbol2_version c.meta) c.nspace c.meta hgood,
    handle_surgery_trivial _ _ hproj.2,
    Bind.bind, Except.bind, pure, Except.pure, rtTop, SBOL2To3.resolved_namespace]
  simp [sbol2_version_ne_empty c.meta, hint, hcon, hif, hmod]


theorem good_activity_parts (a : Activity3) (h : goodTop3B (Top3.activity a) = true) :
    a.types.length ≤ 1 ∧ a.usage = [] ∧ a.association = [] ∧ a.meta.measures = [] := by
  simp only [goodTop3B, Bool.and_eq_true, decide_eq_true_eq, List.isEmpty_iff,
    goodIdent3B] at h
  exact ⟨h.1.1.1.1, h.1.1.2, h.1.2, h.2.1⟩

theorem good_component_parts (c : Component3) (h : goodTop3B (Top3.component c) = true) :
    (∀ fid, Feature3.otherFeature fid ∉ c.features) ∧ c.interface = none ∧
      c.models = [] ∧ c.meta.measures = [] := by
  simp only [goodTop3B, Bool.and_eq_true, List.isEmpty_iff,
    Option.isNone_iff_eq_none, goodIdent3B] at h
  exact ⟨canon_no_other c.identity 1 c.features h.1.1.1.1.1.2,
    h.1.1.2, h.1.2, h.2.1⟩

theorem good_measures (m : Ident3) (h : goodIdent3B m = true) : m.measures = [] := by
  simp only [goodIdent3B, Bool.and_eq_true, List.isEmpty_iff] at h
  exact h.1

theorem fwd_doc_fold (l : List Top3) :
    ∀ (acc : Doc2), (∀ t ∈ l, goodTop3B t = true) →
      l.foldlM SBOL3To2.accept acc = Except.ok
        { componentDefinitions := acc.componentDefinitions ++ (top3Components l).map fwdComponent,
          moduleDefinitions := acc.moduleDefinitions,
          models := acc.models,
          sequences := acc.sequences ++ (top3Sequences l).map fwdSequence,
          collections := acc.collections ++ (top3Collections l).map fwdCollection,
          activities := acc.activities ++ (top3Activities l).map fwdActivity,
          plans := acc.plans, agents := acc.agents, attachments := acc.attachments,
          combinatorialderivations := acc.combinatorialderivations,
          implementations := acc.implementations ++ (top3Implementations l).map fwdImplementation,
          experiments := acc.experiments, experimentalData := acc.experimentalData } := by
  induction l with
  | nil =>
    intro acc _
    simp [List.foldlM_nil, pure, Except.pure, top3Components, top3Sequences,
      top3Collections, top3Activities, top3Implementations]
  | cons t l ih =>
    intro acc h
    have ht := h t (List.mem_cons_self t l)
    have hrest : ∀ x ∈ l, goodTop3B x = true := fun x hx => h x (List.mem_cons_of_mem t hx)
    rw [List.foldlM_cons]
    cases t with
    | collection c =>
      have hm : c.meta.measures = [] := good_measures c.meta (by
        simp only [goodTop3B, Bool.and_eq_true] at ht
        exact ht.2)
      simp only [SBOL3To2.accept, visit_collection_ok c hm, Bind.bind, Except.bind,
        pure, Except.pure]
      rw [ih _ hrest]
      simp [top3Components, top3Sequences, top3Collections, top3Activities,
        top3Implementations, List.filterMap_cons, List.append_assoc]
    | component c =>
      obtain ⟨hf, hi, hmo, hme⟩ := good_component_parts c ht
      simp only [SBOL3To2.accept, visit_component_ok c hf hi hmo hme, Bind.bind,
        Except.bind, pure, Except.pure]
      rw [ih _ hrest]
      simp [top3Components, top3Sequences, top3Collections, top3Activities,
        top3Implementations, List.filterMap_cons, List.append_assoc]
    | sequence s =>
      have hm : s.meta.measures = [] := good_measures s.meta (by
        simp only [goodTop3B, Bool.and_eq_true] at ht
        exact ht.2)
      simp only [SBOL3To2.accept, visit_sequence_ok s hm, Bind.bind, Except.bind,
        pure, Except.pure]
      rw [ih _ hrest]
      simp [top3Components, top3Sequences, top3Collections, top3Activities,
        top3Implementations, List.filterMap_cons, List.append_assoc]
    | activity a =>
      obtain ⟨hlen, hu, hassoc, hme⟩ := good_activity_parts a ht
      simp only [SBOL3To2.accept, visit_activity_ok a hlen hu hassoc hme, Bind.bind,
        Except.bind, pure, Except.pure]
      rw [ih _ hrest]
      simp [top3Components, top3Sequences, top3Collections, top3Activities,
        top3Implementations, List.filterMap_cons, List.append_assoc]
    | implementation i =>
      have hm : i.meta.measures = [] := good_measures i.meta (by simpa [goodTop3B] using ht)
      simp only [SBOL3To2.accept, visit_implementation_ok i hm, Bind.bind, Except.bind,
        pure, Except.pure]
      rw [ih _ hrest]
      simp [top3Components, top3Sequences, top3Collections, top3Activities,
        top3Implementations, List.filterMap_cons, List.append_assoc]
    | agent id => simp [goodTop3B] at ht
    | experiment id => simp [goodTop3B] at ht

theorem fwd_doc_ok (doc : List Top3) (h : ∀ t ∈ doc, goodTop3B t = true) :
    convert3to2 doc = Except.ok (fwdDoc doc) := by
  unfold convert3to2 SBOL3To2.visit_document
  rw [fwd_doc_fold doc emptyDoc2 h]
  simp [emptyDoc2, fwdDoc]


theorem fold_append2 {α β : Type} (step : List Top3 → β → Except ConvErr (List Top3))
    (f : α → β) (g : α → Top3) (l : List α)
    (h : ∀ x ∈ l, ∀ d, step d (f x) = Except.ok (d ++ [g x])) :
    ∀ d0, (l.map f).foldlM step d0 = Except.ok (d0 ++ l.map g) := by
  induction l with
  | nil =>
    intro d0
    simp [List.foldlM_nil, pure, Except.pure]
  | cons x l ih =>
    intro d0
    rw [List.map_cons, List.foldlM_cons, h x (List.mem_cons_self x l) d0]
    simp only [Bind.bind, Except.bind]
    rw [ih (fun y hy => h y (List.mem_cons_of_mem x hy)) (d0 ++ [g x])]
    simp [List.append_assoc]

theorem mem_top3Components {c : Component3} {doc : List Top3}
    (h : c ∈ top3Components doc) : Top3.component c ∈ doc := by
  obtain ⟨t, ht, he⟩ := List.mem_filterMap.mp h
  cases t <;> simp_all

theorem mem_top3Sequences {s : Sequence3} {doc : List Top3}
    (h : s ∈ top3Sequences doc) : Top3.sequence s ∈ doc := by
  obtain ⟨t, ht, he⟩ := List.mem_filterMap.mp h
  cases t <;> simp_all

theorem mem_top3Collections {c : Collection3} {doc : List Top3}
    (h : c ∈ top3Collections doc) : Top3.collection c ∈ doc := by
  obtain ⟨t, ht, he⟩ := List.mem_filterMap.mp h
  cases t <;> simp_all

theorem mem_top3Activities {a : Activity3} {doc : List Top3}
    (h : a ∈ top3Activities doc) : Top3.activity a ∈ doc := by
  obtain ⟨t, ht, he⟩ := List.mem_filterMap.mp h
  cases t <;> simp_all

theorem mem_top3Implementations {i : Implementation3} {doc : List Top3}
    (h : i ∈ top3Implementations doc) : Top3.implementation i ∈ doc := by
  obtain ⟨t, ht, he⟩ := List.mem_filterMap.mp h
  cases t <;> simp_all

theorem filter_kind0 (doc : List Top3) :
    doc.filter (fun t => kindIdx t == 0) = (top3Components doc).map Top3.component := by
  induction doc with
  | nil => rfl
  | cons t l ih => cases t <;> simp [top3Components, List.filterMap_cons, kindIdx, ih,
      List.filter_cons] <;> simp [top3Components] at ih <;> exact ih

theorem filter_kind1 (doc : List Top3) :
    doc.filter (fun t => kindIdx t == 1) = (top3Sequences doc).map Top3.sequence := by
  induction doc with
  | nil => rfl
  | cons t l ih => cases t <;> simp [top3Sequences, List.filterMap_cons, kindIdx, ih,
      List.filter_cons] <;> simp [top3Sequences] at ih <;> exact ih

theorem filter_kind2 (doc : List Top3) :
    doc.filter (fun t => kindIdx t == 2) = (top3Collections doc).map Top3.collection := by
  induction doc with
  | nil => rfl
  | cons t l ih => cases t <;> simp [top3Collections, List.filterMap_cons, kindIdx, ih,
      List.filter_cons] <;> simp [top3Collections] at ih <;> exact ih

theorem filter_kind3 (doc : List Top3) :
    doc.filter (fun t => kindIdx t == 3) = (top3Activities doc).map Top3.activity := by
  induction doc with
  | nil => rfl
  | cons t l ih => cases t <;> simp [top3Activities, List.filterMap_cons, kindIdx, ih,
      List.filter_cons] <;> simp [top3Activities] at ih <;> exact ih

theorem filter_kind4 (doc : List Top3) :
    doc.filter (fun t => kindIdx t == 4) = (top3Implementations doc).map Top3.implementation := by
  induction doc with
  | nil => rfl
  | cons t l ih => cases t <;> simp [top3Implementations, List.filterMap_cons, kindIdx, ih,
      List.filter_cons] <;> simp [top3Implementations] at ih <;> exact ih

theorem rev_doc_ok (doc : List Top3) (h : ∀ t ∈ doc, goodTop3B t = true) :
    convert2to3 (fwdDoc doc) none = Except.ok (rtDoc doc) := by
  have hcd := fold_append2 (SBOL2To3.step_component_definition none) fwdComponent
    (fun c => rtTop (Top3.component c)) (top3Components doc)
    (fun c hc d => rev_cd_step d c (h _ (mem_top3Components hc)))
  have hseq := fold_append2 (SBOL2To3.step_sequence none) fwdSequence
    (fun s => rtTop (Top3.sequence s)) (top3Sequences doc)
    (fun s hs d => rev_seq_step d s (h _ (mem_top3Sequences hs)))
  have hcoll := fold_append2 SBOL2To3.step_collection fwdCollection
    (fun c => rtTop (Top3.collection c)) (top3Collections doc)
    (fun c hc d => rev_coll_step d c (h _ (mem_top3Collections hc)))
  have hact := fold_append2 (SBOL2To3.step_activity none) fwdActivity
    (fun a => rtTop (Top3.activity a)) (top3Activities doc)
    (fun a ha d => rev_act_step d a (h _ (mem_top3Activities ha)))
  have himp := fold_append2 (SBOL2To3.step_implementation none) fwdImplementation
    (fun i => rtTop (Top3.implementation i)) (top3Implementations doc)
    (fun i hi d => rev_imp_step d i (h _ (mem_top3Implementations hi)))
  simp only [convert2to3, SBOL2To3.visit_document, fwdDoc]
  rw [hcd]
  simp only [Bind.bind, Except.bind]
  simp only [ne_eq, not_true_eq_false, if_false, reduceIte]
  rw [hseq]
  simp only [Bind.bind, Except.bind]
  rw [hcoll]
  simp only [Bind.bind, Except.bind]
  rw [hact]
  simp only [Bind.bind, Except.bind]
  rw [himp]
  simp only [Bind.bind, Except.bind, pure, Except.pure]
  simp only [rtDoc, bucketOrder, List.map_append, filter_kind0, filter_kind1,
    filter_kind2, filter_kind3, filter_kind4, List.map_map]
  simp only [List.append_assoc, List.nil_append]
  rfl


theorem map_congr_fn {α β : Type} (f g : α → β) (l : List α)
    (h : ∀ x ∈ l, f x = g x) : l.map f = l.map g := by
  induction l with
  | nil => rfl
  | cons x xs ih =>
    rw [List.map_cons, List.map_cons, h x (List.mem_cons_self x xs),
      ih (fun y hy => h y (List.mem_cons_of_mem x hy))]

theorem erase_rt (t : Top3) : eraseBookkeeping (rtTop t) = eraseBookkeeping t := by
  cases t <;> simp [rtTop, eraseBookkeeping, eraseIdentB]

theorem prof_rt (t : Top3) :
    (identityOf (rtTop t), instanceOfTargets (rtTop t)) =
      (identityOf t, instanceOfTargets t) := by
  cases t <;> rfl

theorem bucketOrder_perm (doc : List Top3) (h : ∀ t ∈ doc, goodTop3B t = true) :
    (bucketOrder doc).Perm doc := by
  induction doc with
  | nil => simp [bucketOrder]
  | cons t l ih =>
    have ht := h t (List.mem_cons_self t l)
    have ihp := ih (fun x hx => h x (List.mem_cons_of_mem t hx))
    refine List.Perm.trans ?_ (List.Perm.cons t ihp)
    cases t with
    | component c =>
      simp [bucketOrder, List.filter_cons, kindIdx]
    | sequence s =>
      simp [bucketOrder, List.filter_cons, kindIdx]
    | collection c =>
      simp [bucketOrder, List.filter_cons, kindIdx]
      rw [← List.append_assoc]
      refine List.Perm.trans List.perm_middle ?_
      rw [List.append_assoc]
    | activity a =>
      simp [bucketOrder, List.filter_cons, kindIdx]
      rw [← List.append_assoc, ← List.append_assoc]
      refine List.Perm.trans List.perm_middle ?_
      rw [List.append_assoc, List.append_assoc]
    | implementation i =>
      simp [bucketOrder, List.filter_cons, kindIdx]
      rw [← List.append_assoc, ← List.append_assoc, ← List.append_assoc]
      refine List.Perm.trans List.perm_middle ?_
      rw [List.append_assoc, List.append_assoc, List.append_assoc]
    | agent id => simp [goodTop3B] at ht
    | experiment id => simp [goodTop3B] at ht

/-- C1 (counterexample): the round trip is NOT the identity up to bookkeeping
on every supported-kinds document — a Sequence whose encoding is the legacy
IUPAC term passes through the forward direction unchanged but is remapped by
the reverse direction, so the round-tripped document differs from the original
beyond the bookkeeping properties. -/
theorem C1_roundtrip_counterexample :
    (convert3to2 [Top3.sequence
        { identity := "u:s", nspace := "u:n", encoding := some SBOL_ENCODING_IUPAC }] >>=
      fun d2 => convert2to3 d2 none) =
      Except.ok [Top3.sequence
        { identity := "u:s", nspace := "u:n", encoding := some IUPAC_DNA_ENCODING,
          meta := { sbol2_version := some "1" } }] ∧
    ¬ ([Top3.sequence
        { identity := "u:s", nspace := "u:n", encoding := some IUPAC_DNA_ENCODING,
          meta := { sbol2_version := some "1" } }].map eraseBookkeeping).Perm
      ([Top3.sequence
        { identity := "u:s", nspace := "u:n",
          encoding := some SBOL_ENCODING_IUPAC }].map eraseBookkeeping) := by
  refine ⟨by decide, by decide⟩

/-- C1 (amended): for documents of supported kinds whose vocabulary terms
avoid the legacy→current tables unless covered forward (types/encodings), whose
extension properties avoid the legacy-core prefixes, whose activities carry at
most one non-empty type and no usage/association, whose components carry only
canonically-named sub-instance features (`parent/SubComponentN` in positional
order, matching the identities the reverse construction re-assigns) and no
interactions/constraints/interface/models/measures, and whose collections
carry the library-default namespace derived from their identity (the reverse
`visit_collection` constructs collections without a namespace argument, so a
recorded namespace is never restored): `convert3to2` succeeds,
`convert2to3` of the result (with no namespace list) succeeds, and the
round-tripped document equals the original up to the backport bookkeeping
properties and kind-bucket reordering (the document is an unordered
collection); in particular every nested sub-instance's instance-of target (and
every identity) is preserved exactly, also with multiple sub-instances. -/
theorem C1_roundtrip_amended (doc : List Top3) (h : ∀ t ∈ doc, goodTop3B t = true) :
    convert3to2 doc = Except.ok (fwdDoc doc) ∧
    convert2to3 (fwdDoc doc) none = Except.ok (rtDoc doc) ∧
    ((rtDoc doc).map eraseBookkeeping).Perm (doc.map eraseBookkeeping) ∧
    ((rtDoc doc).map (fun t => (identityOf t, instanceOfTargets t))).Perm
      (doc.map (fun t => (identityOf t, instanceOfTargets t))) := by
  refine ⟨fwd_doc_ok doc h, rev_doc_ok doc h, ?_, ?_⟩
  · have h1 : (rtDoc doc).map eraseBookkeeping = (bucketOrder doc).map eraseBookkeeping := by
      simp only [rtDoc, List.map_map]
      exact map_congr_fn _ _ _ (fun x _ => erase_rt x)
    rw [h1]
    exact (bucketOrder_perm doc h).map eraseBookkeeping
  · have h1 : (rtDoc doc).map (fun t => (identityOf t, instanceOfTargets t)) =
        (bucketOrder doc).map (fun t => (identityOf t, instanceOfTargets t)) := by
      simp only [rtDoc, List.map_map]
      exact map_congr_fn _ _ _ (fun x _ => prof_rt x)
    rw [h1]
    exact (bucketOrder_perm doc h).map _

/-- C1 (witness): a component with two sub-instances plus two sequences
round-trips. -/
theorem C1_roundtrip_witness :
    roundtrip_example_doc.all goodTop3B = true ∧
    (convert3to2 roundtrip_example_doc = Except.ok (fwdDoc roundtrip_example_doc) ∧
     convert2to3 (fwdDoc roundtrip_example_doc) none =
       Except.ok (rtDoc roundtrip_example_doc) ∧
     ((rtDoc roundtrip_example_doc).map eraseBookkeeping).Perm
       (roundtrip_example_doc.map eraseBookkeeping) ∧
     ((rtDoc roundtrip_example_doc).map
        (fun t => (identityOf t, instanceOfTargets t))).Perm
       (roundtrip_example_doc.map (fun t => (identityOf t, instanceOfTargets t)))) :=
  ⟨by decide, C1_roundtrip_amended roundtrip_example_doc (by decide)⟩

end SBOLConv
